import Mathlib

/-!
# Verification of the HackRU-Fall2025 marketplace backend

A shallow embedding of the server-side logic of the two-sided marketplace
prototype (buyers/households and sellers/grocers): the user store and auth
service (`src/server/models.ts`, `src/server/services.ts`), the flat-file
profile store (`src/server/profile-store.ts`), the dashboard metric
computations (`src/server/dashboard-service.ts`), and the AI-response
normalization pipeline with its heuristic fallbacks (`src/server/ai.ts`).

Modelling conventions:
* JavaScript numbers are modelled as `ℚ` where the code only performs exact
  arithmetic, and as `JNum` (rationals extended with NaN and the two
  infinities) where division can produce non-finite values.
* The ambient clock (`new Date()`) is passed explicitly as a `JsDate`
  carrying a calendar day number and the `toISOString().slice(0, 10)` date
  string.  Parsed date strings (`new Date(s)`) are modelled by their day
  numbers directly; the model assumes date strings parse successfully.
* `crypto.randomUUID()` is passed explicitly as a string parameter.
* The external LLM call (`callAi` / `callAiJson`) is modelled by an
  `Option Json` parameter: `none` is a `null` reply (missing API key,
  request failure, or unparseable JSON) and `some j` is a successfully
  parsed JSON payload.
* File-system persistence is modelled by explicit state passing of the
  in-file lists (users, buyer profiles, seller profiles).
-/

namespace Marketplace

/-! ## JavaScript string primitives -/

/-- `String.prototype.trim`, modelled on the character list. -/
def jsTrimList (l : List Char) : List Char :=
  ((l.dropWhile Char.isWhitespace).reverse.dropWhile Char.isWhitespace).reverse

/-- `String.prototype.trim`. -/
def jsTrim (s : String) : String :=
  ⟨jsTrimList s.data⟩

/-- `String.prototype.toUpperCase` (ASCII, as in `Char.toUpper`). -/
def jsToUpper (s : String) : String :=
  ⟨s.data.map Char.toUpper⟩

/-- `String.prototype.toLowerCase` (ASCII, as in `Char.toLower`). -/
def jsToLower (s : String) : String :=
  ⟨s.data.map Char.toLower⟩

/-- `email.split('@')[0]`: the prefix of the string before the first `@`
(the whole string when no `@` occurs). -/
def emailLocalPart (s : String) : String :=
  ⟨s.data.takeWhile (fun c => c ≠ '@')⟩

/-- Case-insensitive email comparison, as in
`user.email.toLowerCase() === email.toLowerCase()`. -/
def emailEqCI (a b : String) : Bool :=
  jsToLower a == jsToLower b

/-! ## User store (`src/server/models.ts`) and auth types -/

/-- `UserRecord`: one row of `data/users.json`.  The `role` field is kept as
a raw string because the services validate it at runtime. -/
structure UserRecord where
  id : String
  email : String
  password : String
  displayName : String
  role : String
  deriving Repr, DecidableEq

/-- `LoginPayload`. -/
structure LoginPayload where
  email : String
  password : String
  role : String
  deriving Repr, DecidableEq

/-- `SignupPayload` (`LoginPayload` plus optional display name). -/
structure SignupPayload extends LoginPayload where
  displayName : Option String
  deriving Repr, DecidableEq

/-- `findUserByEmail`: first user whose email matches case-insensitively. -/
def findUserByEmail (users : List UserRecord) (email : String) : Option UserRecord :=
  users.find? (fun user => emailEqCI user.email email)

/-- `createUser`: appends a fresh record; the id is `role-uuid` and the
display name falls back to the email local part, then to `"New user"`. -/
def createUser (users : List UserRecord) (uuid : String)
    (email password role : String) (displayName : Option String) :
    UserRecord × List UserRecord :=
  let newUser : UserRecord :=
    { id := role ++ "-" ++ uuid
      email := email
      password := password
      displayName :=
        match displayName with
        | some d => if jsTrim d ≠ "" then jsTrim d
            else if emailLocalPart email ≠ "" then emailLocalPart email else "New user"
        | none => if emailLocalPart email ≠ "" then emailLocalPart email else "New user"
      role := role }
  (newUser, users ++ [newUser])

/-! ## Dates (`src/server/utils/date.ts`)

A parseable calendar date string is modelled by `JsDate`: the day number of
the date (days since an arbitrary epoch, as recovered by
`Date.UTC(getFullYear(), getMonth(), getDate())`) and the `YYYY-MM-DD` text
produced by `toISOString().slice(0, 10)`. -/

structure JsDate where
  days : Int
  iso : String
  deriving Repr, DecidableEq

/-- `differenceInDays(date, from)`: whole days between the two calendar
dates, via UTC milliseconds and `Math.round`. -/
def differenceInDays (date fromDate : Int) : Int :=
  let msPerDay : ℚ := 1000 * 60 * 60 * 24
  ⌊((date * msPerDay - fromDate * msPerDay) / msPerDay : ℚ) + 1 / 2⌋

/-! ## Profile data model (`src/server/types.ts`) -/

/-- `InventoryStatus` for buyer pantry items. -/
inductive InventoryStatus where
  | healthy
  | useSoon
  | restock
  | overflow
  deriving Repr, DecidableEq

/-- An entry of a purchase record's `items` array. -/
structure PurchaseItem where
  name : String
  quantity : ℚ
  unit : String
  category : String
  deriving Repr, DecidableEq

/-- `BuyerPurchaseRecord`. -/
structure BuyerPurchaseRecord where
  id : String
  date : String
  total : ℚ
  store : String
  items : List PurchaseItem
  deriving Repr, DecidableEq

/-- Status of a `shoppingList` entry of an event plan. -/
inductive ShoppingItemStatus where
  | covered
  | add
  | reserve
  deriving Repr, DecidableEq

/-- A `shoppingList` entry of a `BuyerEventPlan`. -/
structure ShoppingListItem where
  name : String
  quantity : ℚ
  unit : String
  status : ShoppingItemStatus
  deriving Repr, DecidableEq

/-- Status of a `BuyerEventPlan`. -/
inductive EventStatus where
  | onTrack
  | needsShopping
  | draft
  deriving Repr, DecidableEq

/-- `BuyerEventPlan`. -/
structure BuyerEventPlan where
  id : String
  name : String
  date : String
  headcount : ℚ
  menu : List String
  status : EventStatus
  shoppingList : List ShoppingListItem
  deriving Repr, DecidableEq

/-- `BuyerInventoryItem`: one pantry row.  `expirationDate` keeps the raw
date string; `daysLeft` is the derived day count computed on append. -/
structure BuyerInventoryItem where
  id : String
  name : String
  quantity : ℚ
  unit : String
  category : String
  status : InventoryStatus
  addedOn : String
  expirationDate : Option String
  daysLeft : Option Int
  estimatedValue : Option ℚ
  notes : Option String
  deriving Repr, DecidableEq

/-- `BuyerInventoryInput` for the append operation.  `expirationDate`
carries the parsed date (see `JsDate`); `none` covers both an absent and an
empty (falsy) date string. -/
structure BuyerInventoryInput where
  userId : String
  name : String
  quantity : ℚ
  unit : String
  category : String
  expirationDate : Option JsDate
  estimatedValue : Option ℚ
  deriving Repr, DecidableEq

/-- The buyer's goal sliders. -/
structure BuyerGoals where
  reduceWaste : ℚ
  saveBudget : ℚ
  eatHealthy : ℚ
  deriving Repr, DecidableEq

/-- `BuyerProfile`. -/
structure BuyerProfile where
  userId : String
  displayName : String
  zip : String
  householdSize : ℚ
  dietaryPreferences : List String
  activityLevel : Option String
  budgetPerWeek : ℚ
  calorieTarget : Option ℚ
  goals : BuyerGoals
  inventory : List BuyerInventoryItem
  purchases : List BuyerPurchaseRecord
  events : List BuyerEventPlan
  lastUpdated : String
  deriving Repr, DecidableEq

/-- `StoreOffer.type`. -/
inductive OfferType where
  | bundle
  | markdown
  | loyalty
  deriving Repr, DecidableEq

/-- `StoreOffer`: zip-scoped promotional record consumed read-only. -/
structure StoreOffer where
  id : String
  zip : String
  storeName : String
  category : String
  description : String
  discountPercent : ℚ
  validThrough : String
  items : List String
  type : OfferType
  deriving Repr, DecidableEq

/-- Seller inventory status. -/
inductive SellerStatus where
  | healthy
  | risk
  | critical
  deriving Repr, DecidableEq

/-- `SellerInventoryItem`. -/
structure SellerInventoryItem where
  sku : String
  name : String
  category : String
  stock : ℚ
  parLevel : ℚ
  daysOnHand : ℚ
  status : SellerStatus
  spoilageRisk : ℚ
  margin : ℚ
  deriving Repr, DecidableEq

/-- The input to `addSellerInventoryEntry`: an inventory item without its
derived `status`, and with `spoilageRisk` optional. -/
structure SellerInventoryEntryInput where
  sku : String
  name : String
  category : String
  stock : ℚ
  parLevel : ℚ
  daysOnHand : ℚ
  margin : ℚ
  spoilageRisk : Option ℚ
  deriving Repr, DecidableEq

/-- `SellerDemandSignal`. -/
structure SellerDemandSignal where
  id : String
  zip : String
  startDate : String
  endDate : String
  expectedLift : ℚ
  focusItems : List String
  deriving Repr, DecidableEq

/-- `SellerPromotionIdea.status`. -/
inductive PromoStatus where
  | draft
  | active
  | recommended
  deriving Repr, DecidableEq

/-- `SellerPromotionIdea.channel`. -/
inductive PromoChannel where
  | app
  | inStore
  | flyer
  deriving Repr, DecidableEq

/-- `SellerPromotionIdea`. -/
structure SellerPromotionIdea where
  id : String
  name : String
  status : PromoStatus
  channel : PromoChannel
  discount : String
  focusItems : List String
  deriving Repr, DecidableEq

/-- `SellerProfile.store.format`. -/
inductive StoreFormat where
  | grocery
  | market
  | warehouse
  deriving Repr, DecidableEq

/-- The nested `store` record of a `SellerProfile`. -/
structure SellerStoreInfo where
  name : String
  zip : String
  region : String
  format : StoreFormat
  deriving Repr, DecidableEq

/-- The seller goal sliders. -/
structure SellerGoals where
  reduceSpoilage : ℚ
  increaseSellThrough : ℚ
  growBundles : ℚ
  deriving Repr, DecidableEq

/-- A `nearbyBuyerInsights` entry. -/
structure NearbyBuyerInsight where
  zip : String
  upcomingEvents : ℚ
  topItems : List String
  deriving Repr, DecidableEq

/-- A `salesPerformance` entry. -/
structure SalesWeek where
  weekOf : String
  revenue : ℚ
  grossMargin : ℚ
  wasteAvoided : ℚ
  deriving Repr, DecidableEq

/-- `SellerProfile`. -/
structure SellerProfile where
  userId : String
  displayName : String
  store : SellerStoreInfo
  goals : SellerGoals
  inventory : List SellerInventoryItem
  demandSignals : List SellerDemandSignal
  promotions : List SellerPromotionIdea
  nearbyBuyerInsights : List NearbyBuyerInsight
  salesPerformance : List SalesWeek
  lastUpdated : String
  deriving Repr, DecidableEq

/-! ## Profile store operations (`src/server/profile-store.ts`)

The flat JSON files are modelled as the lists they contain; each operation
returns its result together with the updated list. -/

/-- `Array.prototype.findIndex`, as an `Option Nat`. -/
def jsFindIndex {α : Type} (pred : α → Bool) : List α → Option Nat
  | [] => none
  | a :: rest => if pred a then some 0 else (jsFindIndex pred rest).map (fun i => i + 1)

/-- `getBuyerProfile`: first profile with the given `userId`. -/
def getBuyerProfile (profiles : List BuyerProfile) (userId : String) :
    Option BuyerProfile :=
  profiles.find? (fun profile => profile.userId == userId)

/-- `upsertBuyerProfile`: replace the first profile with the same `userId`
(`findIndex` then assignment), else push at the end. -/
def upsertBuyerProfile (profiles : List BuyerProfile) (profile : BuyerProfile) :
    BuyerProfile × List BuyerProfile :=
  match jsFindIndex (fun existing => existing.userId == profile.userId) profiles with
  | some index => (profile, profiles.set index profile)
  | none => (profile, profiles ++ [profile])

/-- `getSellerProfile`. -/
def getSellerProfile (profiles : List SellerProfile) (userId : String) :
    Option SellerProfile :=
  profiles.find? (fun profile => profile.userId == userId)

/-- `upsertSellerProfile`. -/
def upsertSellerProfile (profiles : List SellerProfile) (profile : SellerProfile) :
    SellerProfile × List SellerProfile :=
  match jsFindIndex (fun existing => existing.userId == profile.userId) profiles with
  | some index => (profile, profiles.set index profile)
  | none => (profile, profiles ++ [profile])

/-- `deriveStatus(daysLeft?, quantity?)`: derived pantry status. -/
def deriveStatus (daysLeft : Option Int) (quantity : Option ℚ) : InventoryStatus :=
  match daysLeft with
  | some d =>
    if d ≤ 3 then .useSoon
    else if quantity.getD 0 ≤ 0.5 then .restock
    else if d > 40 then .overflow
    else .healthy
  | none =>
    if quantity.getD 0 ≤ 0.5 then .restock else .healthy

/-- `appendBuyerInventoryItem`: derives `daysLeft` and `status`, appends the
new item and refreshes `lastUpdated`.  `newId` stands for
`inv-${crypto.randomUUID()}`. -/
def appendBuyerInventoryItem (profiles : List BuyerProfile) (today : JsDate)
    (newId : String) (input : BuyerInventoryInput) :
    Except String (BuyerProfile × List BuyerProfile) :=
  match getBuyerProfile profiles input.userId with
  | none => .error "Profile not found for buyer"
  | some profile =>
    let daysLeft : Option Int :=
      input.expirationDate.map (fun e => max 0 (differenceInDays e.days today.days))
    let newItem : BuyerInventoryItem :=
      { id := newId
        name := input.name
        quantity := input.quantity
        unit := input.unit
        category := input.category
        status := deriveStatus daysLeft (some input.quantity)
        addedOn := today.iso
        expirationDate := input.expirationDate.map (fun e => e.iso)
        daysLeft := daysLeft
        estimatedValue := input.estimatedValue
        notes := none }
    let updatedProfile : BuyerProfile :=
      { profile with
          inventory := profile.inventory ++ [newItem]
          lastUpdated := today.iso }
    .ok (upsertBuyerProfile profiles updatedProfile)

/-- `removeBuyerInventoryItem`: filters the item out and refreshes
`lastUpdated`. -/
def removeBuyerInventoryItem (profiles : List BuyerProfile) (today : JsDate)
    (userId inventoryId : String) :
    Except String (BuyerProfile × List BuyerProfile) :=
  match getBuyerProfile profiles userId with
  | none => .error "Profile not found for buyer"
  | some profile =>
    let updatedInventory := profile.inventory.filter (fun it => it.id ≠ inventoryId)
    let updatedProfile : BuyerProfile :=
      { profile with
          inventory := updatedInventory
          lastUpdated := today.iso }
    .ok (upsertBuyerProfile profiles updatedProfile)

/-- The default buyer scaffold created on first login/signup. -/
def buyerScaffold (userId displayName : String) (today : JsDate) : BuyerProfile :=
  { userId := userId
    displayName := displayName
    zip := "07030"
    householdSize := 1
    dietaryPreferences := ["balanced"]
    activityLevel := some "moderate"
    budgetPerWeek := 90
    calorieTarget := some 2000
    goals := { reduceWaste := 60, saveBudget := 60, eatHealthy := 60 }
    inventory := []
    purchases := []
    events := []
    lastUpdated := today.iso }

/-- `ensureBuyerProfileForUser`: returns the existing profile untouched, or
creates and persists the default scaffold. -/
def ensureBuyerProfileForUser (profiles : List BuyerProfile)
    (userId displayName : String) (today : JsDate) :
    BuyerProfile × List BuyerProfile :=
  match getBuyerProfile profiles userId with
  | some existing => (existing, profiles)
  | none => upsertBuyerProfile profiles (buyerScaffold userId displayName today)

/-- The default seller scaffold created on first login/signup. -/
def sellerScaffold (userId displayName : String) (today : JsDate) : SellerProfile :=
  { userId := userId
    displayName := displayName
    store :=
      { name := displayName ++ "\x27s Market"
        zip := "07030"
        region := "Hudson County"
        format := .market }
    goals := { reduceSpoilage := 60, increaseSellThrough := 60, growBundles := 60 }
    inventory := []
    demandSignals := []
    promotions := []
    nearbyBuyerInsights := []
    salesPerformance := []
    lastUpdated := today.iso }

/-- `ensureSellerProfileForUser`. -/
def ensureSellerProfileForUser (profiles : List SellerProfile)
    (userId displayName : String) (today : JsDate) :
    SellerProfile × List SellerProfile :=
  match getSellerProfile profiles userId with
  | some existing => (existing, profiles)
  | none => upsertSellerProfile profiles (sellerScaffold userId displayName today)

/-- `addSellerInventoryEntry`: computes spoilage risk and status from
`daysOnHand`, appends the entry and refreshes `lastUpdated`. -/
def addSellerInventoryEntry (profiles : List SellerProfile) (today : JsDate)
    (userId : String) (item : SellerInventoryEntryInput) :
    Except String (SellerProfile × List SellerProfile) :=
  match getSellerProfile profiles userId with
  | none => .error "Profile not found for seller"
  | some profile =>
    let computedRisk : ℚ :=
      if item.daysOnHand > 14 then 70 else if item.daysOnHand > 9 then 40 else 20
    let status : SellerStatus :=
      if computedRisk > 65 then .critical else if computedRisk > 40 then .risk else .healthy
    let newEntry : SellerInventoryItem :=
      { sku := item.sku
        name := item.name
        category := item.category
        stock := item.stock
        parLevel := item.parLevel
        daysOnHand := item.daysOnHand
        status := status
        spoilageRisk := item.spoilageRisk.getD computedRisk
        margin := item.margin }
    let updatedProfile : SellerProfile :=
      { profile with
          inventory := profile.inventory ++ [newEntry]
          lastUpdated := today.iso }
    .ok (upsertSellerProfile profiles updatedProfile)

/-! ## Auth services (`src/server/services.ts`) -/

/-- `AuthSuccess | AuthFailure`. -/
inductive AuthResult where
  | ok (id displayName role : String)
  | fail (error : String)
  deriving Repr, DecidableEq

/-- The combined persistent state touched by the auth services. -/
structure Stores where
  users : List UserRecord
  buyers : List BuyerProfile
  sellers : List SellerProfile
  deriving Repr, DecidableEq

/-- `authenticateUser`: validates the payload, looks the user up by email
(case-insensitively), compares role and password, and provisions the
role-specific profile before reporting success. -/
def authenticateUser (stores : Stores) (today : JsDate) (payload : LoginPayload) :
    AuthResult × Stores :=
  if payload.email = "" ∨ payload.password = "" then
    (.fail "Email and password are required.", stores)
  else if payload.role ≠ "buyer" ∧ payload.role ≠ "seller" then
    (.fail "Unsupported account role.", stores)
  else
    match findUserByEmail stores.users payload.email with
    | none => (.fail "No account matches those credentials.", stores)
    | some user =>
      if user.role ≠ payload.role then
        (.fail "No account matches those credentials.", stores)
      else if user.password ≠ payload.password then
        (.fail "Incorrect login credentials.", stores)
      else if user.role = "buyer" then
        let ensured := ensureBuyerProfileForUser stores.buyers user.id user.displayName today
        (.ok user.id user.displayName user.role, { stores with buyers := ensured.2 })
      else
        let ensured := ensureSellerProfileForUser stores.sellers user.id user.displayName today
        (.ok user.id user.displayName user.role, { stores with sellers := ensured.2 })

/-- `registerUser`: trims the payload, rejects duplicate emails, creates the
user (`uuid` standing for `crypto.randomUUID()`) and provisions the
role-specific profile. -/
def registerUser (stores : Stores) (today : JsDate) (uuid : String)
    (payload : SignupPayload) : AuthResult × Stores :=
  let email := jsTrim payload.email
  let password := jsTrim payload.password
  let role := payload.role
  let displayName := payload.displayName.map jsTrim
  if email = "" ∨ password = "" then
    (.fail "Email and password are required.", stores)
  else if role ≠ "buyer" ∧ role ≠ "seller" then
    (.fail "Unsupported account role.", stores)
  else
    match findUserByEmail stores.users email with
    | some _ => (.fail "Account already exists. Please sign in instead.", stores)
    | none =>
      let created := createUser stores.users uuid email password role displayName
      let user := created.1
      if user.role = "buyer" then
        let ensured := ensureBuyerProfileForUser stores.buyers user.id user.displayName today
        (.ok user.id user.displayName user.role,
          { stores with users := created.2, buyers := ensured.2 })
      else
        let ensured := ensureSellerProfileForUser stores.sellers user.id user.displayName today
        (.ok user.id user.displayName user.role,
          { stores with users := created.2, sellers := ensured.2 })

/-! ## JavaScript numbers with NaN and infinities

The dashboard metric arithmetic can divide by zero (`budgetPerWeek`), so it
is modelled over `JNum`: exact rationals extended with `NaN`, `+Infinity`
and `-Infinity`, following IEEE-754 double behaviour for the operations the
code uses (the negative zero is identified with zero). -/

inductive JNum where
  | num (q : ℚ)
  | nan
  | inf
  | ninf
  deriving Repr, DecidableEq

namespace JNum

/-- Addition. -/
def add : JNum → JNum → JNum
  | nan, _ => nan
  | _, nan => nan
  | inf, ninf => nan
  | ninf, inf => nan
  | inf, _ => inf
  | _, inf => inf
  | ninf, _ => ninf
  | _, ninf => ninf
  | num a, num b => num (a + b)

/-- Negation. -/
def neg : JNum → JNum
  | num q => num (-q)
  | nan => nan
  | inf => ninf
  | ninf => inf

/-- Subtraction. -/
def sub (a b : JNum) : JNum := add a (neg b)

/-- Multiplication. -/
def mul : JNum → JNum → JNum
  | nan, _ => nan
  | _, nan => nan
  | num a, num b => num (a * b)
  | inf, inf => inf
  | inf, ninf => ninf
  | ninf, inf => ninf
  | ninf, ninf => inf
  | inf, num q => if q = 0 then nan else if q > 0 then inf else ninf
  | num q, inf => if q = 0 then nan else if q > 0 then inf else ninf
  | ninf, num q => if q = 0 then nan else if q > 0 then ninf else inf
  | num q, ninf => if q = 0 then nan else if q > 0 then ninf else inf

/-- Division (zero divisors produce `NaN` at `0/0` and signed infinities
otherwise). -/
def div : JNum → JNum → JNum
  | nan, _ => nan
  | _, nan => nan
  | num a, num b =>
    if b ≠ 0 then num (a / b) else if a = 0 then nan else if a > 0 then inf else ninf
  | inf, inf => nan
  | inf, ninf => nan
  | ninf, inf => nan
  | ninf, ninf => nan
  | inf, num q => if q ≥ 0 then inf else ninf
  | ninf, num q => if q ≥ 0 then ninf else inf
  | num _, inf => num 0
  | num _, ninf => num 0

/-- `Math.round`: round half towards positive infinity. -/
def round : JNum → JNum
  | num q => num (⌊q + 1 / 2⌋ : ℤ)
  | nan => nan
  | inf => inf
  | ninf => ninf

/-- `Math.min` (NaN-propagating). -/
def min : JNum → JNum → JNum
  | nan, _ => nan
  | _, nan => nan
  | ninf, _ => ninf
  | _, ninf => ninf
  | inf, b => b
  | a, inf => a
  | num a, num b => num (Min.min a b)

/-- `Math.max` (NaN-propagating). -/
def max : JNum → JNum → JNum
  | nan, _ => nan
  | _, nan => nan
  | inf, _ => inf
  | _, inf => inf
  | ninf, b => b
  | a, ninf => a
  | num a, num b => num (Max.max a b)

end JNum

/-- Rational division as a JavaScript number (captures `x / y` where both
operands are finite). -/
def qdivJ (x y : ℚ) : JNum :=
  if y ≠ 0 then .num (x / y) else if x = 0 then .nan else if x > 0 then .inf else .ninf

/-! ## Dashboard metrics (`src/server/dashboard-service.ts`) -/

/-- `clampScore(value)`: `Math.max(0, Math.min(100, Math.round(value)))`. -/
def clampScore (value : JNum) : JNum :=
  JNum.max (.num 0) (JNum.min (.num 100) (JNum.round value))

/-- `BuyerDashboardMetrics`. -/
structure BuyerDashboardMetrics where
  wasteRisk : JNum
  pantryHealth : JNum
  budgetHealth : JNum
  eventReadiness : JNum
  deriving Repr, DecidableEq

/-- `SellerDashboardMetrics`. -/
structure SellerDashboardMetrics where
  sellThrough : JNum
  spoilageRisk : JNum
  promotionMomentum : JNum
  demandConfidence : JNum
  deriving Repr, DecidableEq

/-- The spend over the four most recent purchases,
`profile.purchases.slice(0, 4).reduce((sum, p) => sum + p.total, 0)`. -/
def buyerRecentSpend (profile : BuyerProfile) : ℚ :=
  (profile.purchases.take 4).foldl (fun sum purchase => sum + purchase.total) 0

/-- `computeBuyerMetrics`.  All arithmetic except the budget ratio is over
finite values; the budget ratio divides by `budgetPerWeek`. -/
def computeBuyerMetrics (profile : BuyerProfile) : BuyerDashboardMetrics :=
  let total := profile.inventory.length
  let expiring := (profile.inventory.filter (fun item => item.status == .useSoon)).length
  let healthy := (profile.inventory.filter (fun item => item.status == .healthy)).length
  let restock := (profile.inventory.filter (fun item => item.status == .restock)).length
  let wasteRisk := clampScore (.num (100 - (expiring : ℚ) * 18))
  let pantryHealth :=
    if total = 0 then JNum.num 0
    else clampScore (.num (((healthy : ℚ) / (total : ℚ)) * 100 - (restock : ℚ) * 5))
  let recentSpend := buyerRecentSpend profile
  let budgetHealth :=
    clampScore (JNum.sub (.num 100)
      (JNum.mul (qdivJ (recentSpend - profile.budgetPerWeek) profile.budgetPerWeek) (.num 40)))
  let readyEvents := (profile.events.filter (fun event => event.status == .onTrack)).length
  let eventReadiness :=
    if profile.events.length = 0 then JNum.num 50
    else clampScore (.num (((readyEvents : ℚ) / (profile.events.length : ℚ)) * 100))
  { wasteRisk := wasteRisk
    pantryHealth := pantryHealth
    budgetHealth := budgetHealth
    eventReadiness := eventReadiness }

/-- `computeSellerMetrics`.  `inventory.length || 1` guards the sell-through
denominator, `Math.max(1, risky.length)` the spoilage denominator (with a
falsy-`|| 20` default), and `Math.max(1, length)` the demand denominator, so
every division here is by a positive count. -/
def computeSellerMetrics (profile : SellerProfile) : SellerDashboardMetrics :=
  let risky := profile.inventory.filter (fun item => item.status ≠ .healthy)
  let total : ℚ := if profile.inventory.length = 0 then 1 else (profile.inventory.length : ℚ)
  let sellThrough := clampScore (.num ((1 - (risky.length : ℚ) / total) * 100))
  let spoilAverage : ℚ :=
    (risky.foldl (fun score item => score + item.spoilageRisk) 0) /
      (Max.max 1 (risky.length : ℚ))
  let spoilageRisk := clampScore (.num (if spoilAverage = 0 then 20 else spoilAverage))
  let activePromos := (profile.promotions.filter (fun promo => promo.status ≠ .draft)).length
  let promotionMomentum :=
    clampScore (.num ((activePromos : ℚ) * 25 + profile.goals.growBundles))
  let liftSum : ℚ :=
    profile.demandSignals.foldl (fun sum signal => sum + signal.expectedLift * 100) 0
  let demandConfidence :=
    clampScore (.num (liftSum / Max.max 1 (profile.demandSignals.length : ℚ)))
  { sellThrough := sellThrough
    spoilageRisk := spoilageRisk
    promotionMomentum := promotionMomentum
    demandConfidence := demandConfidence }

/-- A JavaScript number that is an integer between 0 and 100. -/
def isScore (v : JNum) : Prop :=
  ∃ n : ℤ, v = .num (n : ℚ) ∧ 0 ≤ n ∧ n ≤ 100

/-! ## JSON values

The value space produced by `JSON.parse`, used to model the payloads the
LLM reply is parsed into.  Property reads on non-objects (which yield
`undefined` in JavaScript) are modelled by `Option`/`Json.null`; the code
below only distinguishes `undefined` from `null` where the two behave
differently. -/

inductive Json where
  | null
  | bool (b : Bool)
  | num (q : ℚ)
  | str (s : String)
  | arr (elems : List Json)
  | obj (fields : List (String × Json))

/-- Property read `j[key]`: `none` models `undefined`. -/
def jget (j : Json) (key : String) : Option Json :=
  match j with
  | .obj fields => (fields.find? (fun field => field.1 == key)).map (fun field => field.2)
  | _ => none

/-- Property read where the consumer treats `undefined` and `null` alike
(`Array.isArray`, truthiness and `typeof` tests reject both). -/
def jfield (j : Json) (key : String) : Json :=
  (jget j key).getD .null

/-- `input && typeof input === 'object'`: `null` is falsy; arrays and
objects are the truthy values of type `'object'`. -/
def isTruthyObject (j : Json) : Bool :=
  match j with
  | .obj _ => true
  | .arr _ => true
  | _ => false

/-- JavaScript truthiness of a JSON value. -/
def jsTruthy (j : Json) : Bool :=
  match j with
  | .null => false
  | .bool b => b
  | .num q => q ≠ 0
  | .str s => s ≠ ""
  | .arr _ => true
  | .obj _ => true

/-! ## Number formatting

`qToString` models the default JavaScript number-to-string conversion
(exact for integers, decimal expansion for terminating fractions);
`qToFixed0`/`qToFixed2` model `toFixed` with its round-half-away-from-zero
behaviour on the magnitude.  The theorems below never depend on the digits
these produce. -/

/-- `Math.round` on an exact rational: round half towards `+∞`. -/
def jsRoundQ (q : ℚ) : ℤ := ⌊q + 1 / 2⌋

/-- Decimal digits of `n`, left-padded with zeros to width `k`. -/
def natDigitsPad (n : ℕ) (k : ℕ) : String :=
  let s := toString n
  ⟨List.replicate (k - s.length) '0'⟩ ++ s

/-- Default JavaScript number formatting (model). -/
def qToString (q : ℚ) : String :=
  if q.den = 1 then toString q.num
  else
    let sign := if q < 0 then "-" else ""
    let m := |q|
    let ipart := (⌊m⌋).toNat
    let fracpart := m - ⌊m⌋
    match (List.range 21).find? (fun k => (fracpart * 10 ^ k).den = 1) with
    | some k => sign ++ toString ipart ++ "." ++ natDigitsPad (fracpart * 10 ^ k).num.toNat k
    | none => sign ++ toString m.num ++ "/" ++ toString m.den

/-- `x.toFixed(0)` (model). -/
def qToFixed0 (q : ℚ) : String :=
  let sign := if q < 0 then "-" else ""
  sign ++ toString ⌊|q| + 1 / 2⌋

/-- `x.toFixed(2)` (model). -/
def qToFixed2 (q : ℚ) : String :=
  let sign := if q < 0 then "-" else ""
  let n := (⌊|q| * 100 + 1 / 2⌋).toNat
  sign ++ toString (n / 100) ++ "." ++ natDigitsPad (n % 100) 2

mutual

/-- `String(value)` coercion of a JSON value (model). -/
def jsStringCoerce (j : Json) : String :=
  match j with
  | .null => "null"
  | .bool true => "true"
  | .bool false => "false"
  | .num q => qToString q
  | .str s => s
  | .arr elems => String.intercalate "," (jsStringCoerceList elems)
  | .obj _ => "[object Object]"

/-- `String` coercion, mapped over a list of JSON values. -/
def jsStringCoerceList (elems : List Json) : List String :=
  match elems with
  | [] => []
  | x :: xs => jsStringCoerce x :: jsStringCoerceList xs

end

/-- `String(v ?? '')`: empty for `undefined`/`null`, coerced otherwise. -/
def jsStringOrEmpty (o : Option Json) : String :=
  match o with
  | none => ""
  | some .null => ""
  | some v => jsStringCoerce v

/-- `s.includes(sub)` on strings. -/
def strContains (s sub : String) : Bool :=
  (List.range (s.data.length + 1)).any (fun i => sub.data.isPrefixOf (s.data.drop i))

/-! ## Insight parsing (`src/server/ai.ts`) -/

/-- `MoodColor`. -/
inductive MoodColor where
  | green
  | amber
  | red
  deriving Repr, DecidableEq

/-- `HighlightedInsight`. -/
structure HighlightedInsight where
  keyword : String
  mood : MoodColor
  detail : String
  deriving Repr, DecidableEq

/-- `ensureMood(value, fallback)`: accepts only the strings
`green`/`amber`/`red` case-insensitively, otherwise the fallback. -/
def ensureMood (value : Option Json) (fallback : MoodColor) : MoodColor :=
  match value with
  | some (.str s) =>
    let normalized := jsToLower s
    if normalized = "green" then .green
    else if normalized = "amber" then .amber
    else if normalized = "red" then .red
    else fallback
  | _ => fallback

/-- `formatInsight`: trims and upper-cases the keyword, trims the detail. -/
def formatInsight (keyword : String) (mood : MoodColor) (detail : String) :
    HighlightedInsight :=
  { keyword := jsToUpper (jsTrim keyword)
    mood := mood
    detail := jsTrim detail }

/-- `parseInsight`: rejects non-objects and entries without a non-empty
string keyword and detail; coerces the mood through `ensureMood`. -/
def parseInsight (input : Json) : Option HighlightedInsight :=
  if !isTruthyObject input then none
  else
    let keyword := match jget input "keyword" with
      | some (.str s) => jsTrim s
      | _ => ""
    let detail := match jget input "detail" with
      | some (.str s) => jsTrim s
      | _ => ""
    if keyword = "" ∨ detail = "" then none
    else some
      { keyword := jsToUpper keyword
        mood := ensureMood (jget input "mood") .amber
        detail := detail }

/-- `parseInsightArray`: `[]` for non-arrays, else the parsed entries with
the rejected ones dropped (`.map(parseInsight).filter(Boolean)`). -/
def parseInsightArray (value : Json) : List HighlightedInsight :=
  match value with
  | .arr elems => elems.filterMap parseInsight
  | _ => []

/-- `MealPlanSuggestion`. -/
structure MealPlanSuggestion where
  day : String
  meals : List HighlightedInsight
  addOns : Option (List HighlightedInsight)
  deriving Repr, DecidableEq

/-- `parseMealPlan`. -/
def parseMealPlan (value : Json) : List MealPlanSuggestion :=
  match value with
  | .arr elems =>
    elems.filterMap (fun entry =>
      if !isTruthyObject entry then none
      else
        let day := match jget entry "day" with
          | some (.str s) => jsTrim s
          | _ => ""
        if day = "" then none
        else
          let meals := parseInsightArray (jfield entry "meals")
          let addOns := parseInsightArray (jfield entry "addOns")
          some { day := day
                 meals := meals
                 addOns := if addOns.length > 0 then some addOns else none })
  | _ => []

/-- `DietScheduleSuggestion`. -/
structure DietScheduleSuggestion where
  day : String
  focus : HighlightedInsight
  tip : HighlightedInsight
  deriving Repr, DecidableEq

/-- `parseDietSchedule`. -/
def parseDietSchedule (value : Json) : List DietScheduleSuggestion :=
  match value with
  | .arr elems =>
    elems.filterMap (fun entry =>
      if !isTruthyObject entry then none
      else
        let day := match jget entry "day" with
          | some (.str s) => jsTrim s
          | _ => ""
        if day = "" then none
        else
          match parseInsight (jfield entry "focus"), parseInsight (jfield entry "tip") with
          | some focus, some tip => some { day := day, focus := focus, tip := tip }
          | _, _ => none)
  | _ => []

/-- `BuyerKpiMetric`. -/
inductive BuyerKpiMetric where
  | wasteRisk
  | pantryHealth
  | budgetHealth
  | eventReadiness
  deriving Repr, DecidableEq

/-- The `KPI_HEADLINES` table. -/
def kpiHeadline (metric : BuyerKpiMetric) : String :=
  match metric with
  | .wasteRisk => "WASTE RISK"
  | .pantryHealth => "PANTRY LOAD"
  | .budgetHealth => "BUDGET HEALTH"
  | .eventReadiness => "EVENT READINESS"

/-- `ensureKpiMetric`: exact (case-sensitive) membership in `KPI_METRICS`,
defaulting to `wasteRisk`. -/
def ensureKpiMetric (value : Option Json) : BuyerKpiMetric :=
  match value with
  | some (.str s) =>
    if s = "wasteRisk" then .wasteRisk
    else if s = "pantryHealth" then .pantryHealth
    else if s = "budgetHealth" then .budgetHealth
    else if s = "eventReadiness" then .eventReadiness
    else .wasteRisk
  | _ => .wasteRisk

/-- `BuyerKpiCallout`. -/
structure BuyerKpiCallout where
  metric : BuyerKpiMetric
  headline : String
  mood : MoodColor
  detail : String
  deriving Repr, DecidableEq

/-- `parseKpiCallouts`. -/
def parseKpiCallouts (value : Json) : List BuyerKpiCallout :=
  match value with
  | .arr elems =>
    elems.filterMap (fun entry =>
      if !isTruthyObject entry then none
      else
        let metric := ensureKpiMetric (jget entry "metric")
        let detail := match jget entry "detail" with
          | some (.str s) => jsTrim s
          | _ => ""
        if detail = "" then none
        else
          let rawHeadline := match jget entry "headline" with
            | some (.str s) => jsTrim s
            | _ => ""
          let headline := if rawHeadline ≠ "" then jsToUpper rawHeadline else kpiHeadline metric
          some { metric := metric
                 headline := headline
                 mood := ensureMood (jget entry "mood") .amber
                 detail := detail })
  | _ => []

/-- `InventoryAnnotation`. -/
structure InventoryAnnotation where
  name : String
  mood : MoodColor
  statusLabel : String
  categoryLabel : String
  suggestion : Option String
  deriving Repr, DecidableEq

/-- `parseInventoryAnnotations`. -/
def parseInventoryAnnotations (value : Json) : List InventoryAnnotation :=
  match value with
  | .arr elems =>
    elems.filterMap (fun entry =>
      if !isTruthyObject entry then none
      else
        let name := match jget entry "name" with
          | some (.str s) => jsTrim s
          | _ => ""
        let statusLabel := match jget entry "statusLabel" with
          | some (.str s) => jsTrim s
          | _ => ""
        let categoryLabel := match jget entry "categoryLabel" with
          | some (.str s) => jsTrim s
          | _ => ""
        if name = "" ∨ statusLabel = "" ∨ categoryLabel = "" then none
        else
          let suggestion := match jget entry "suggestion" with
            | some (.str s) => some (jsTrim s)
            | _ => none
          some { name := name
                 mood := ensureMood (jget entry "mood") .amber
                 statusLabel := statusLabel
                 categoryLabel := categoryLabel
                 suggestion := suggestion })
  | _ => []

/-- `NutritionRecommendation`. -/
structure NutritionRecommendation where
  item : String
  reason : String
  storeSuggestion : Option String
  mood : MoodColor
  deriving Repr, DecidableEq

/-- `parseNutritionRecommendations` (note the `green` mood fallback). -/
def parseNutritionRecommendations (value : Json) : List NutritionRecommendation :=
  match value with
  | .arr elems =>
    elems.filterMap (fun entry =>
      if !isTruthyObject entry then none
      else
        let item := match jget entry "item" with
          | some (.str s) => jsTrim s
          | _ => ""
        let reason := match jget entry "reason" with
          | some (.str s) => jsTrim s
          | _ => ""
        if item = "" ∨ reason = "" then none
        else
          let storeSuggestion := match jget entry "storeSuggestion" with
            | some (.str s) => some (jsTrim s)
            | _ => none
          some { item := item
                 reason := reason
                 storeSuggestion := storeSuggestion
                 mood := ensureMood (jget entry "mood") .green })
  | _ => []

/-- An entry of the nutrition scoring grid built from the dedicated
nutrition-rating reply. -/
structure NutritionGridEntry where
  id : String
  label : String
  score : ℚ
  mood : MoodColor
  deriving Repr, DecidableEq

/-- `PantryNutritionSummary`. -/
structure PantryNutritionSummary where
  macroBalance : String
  missingNutrients : List String
  recommendedAdditions : List NutritionRecommendation
  overallMood : MoodColor
  nutritionGrid : Option (List NutritionGridEntry)
  deriving Repr, DecidableEq

/-- `parsePantryNutrition`. -/
def parsePantryNutrition (value : Json) : Option PantryNutritionSummary :=
  if !isTruthyObject value then none
  else
    let macroBalance := match jget value "macroBalance" with
      | some (.str s) => jsTrim s
      | _ => ""
    let missingNutrients := match jget value "missingNutrients" with
      | some (.arr elems) =>
        (elems.map (fun item => match item with
          | .str s => jsTrim s
          | _ => "")).filter (fun s => s ≠ "")
      | _ => []
    let recommendedAdditions := parseNutritionRecommendations (jfield value "recommendedAdditions")
    let overallMood := ensureMood (jget value "overallMood") .amber
    if macroBalance = "" ∧ missingNutrients = [] ∧ recommendedAdditions = [] then none
    else some
      { macroBalance := if macroBalance ≠ "" then macroBalance
          else "No macro balance insight available."
        missingNutrients := missingNutrients
        recommendedAdditions := recommendedAdditions
        overallMood := overallMood
        nutritionGrid := none }

/-! ## `extractJsonPayload`

The function first tries the regex `/` + "```json\\s*([\\s\\S]*?)```" + `/i`,
then the plain-fence variant, then falls back to brace/bracket slicing.  The
regex semantics are modelled directly: the match starts at the leftmost
position where the opening fence is followed (anywhere later) by a closing
fence; the greedy `\s*` then skips the whitespace run after the opening
fence, and the lazy capture group extends to the first closing fence. -/

/-- The backtick character (U+0060). -/
def backtick : Char := Char.ofNat 96

/-- Does the list start with three backticks? -/
def tripleHead (l : List Char) : Bool :=
  match l with
  | a :: b :: c :: _ => a == backtick && b == backtick && c == backtick
  | _ => false

/-- Does the list start with a case-insensitive ```` ```json ```` fence? -/
def jsonHeaderHead (l : List Char) : Bool :=
  tripleHead l && ((l.drop 3).take 4).map Char.toLower == "json".data

/-- Split at the first closing ```` ``` ````: the text before it and the
text after it (`none` when no closing fence occurs). -/
def splitAtClose (l : List Char) : Option (List Char × List Char) :=
  match l with
  | [] => none
  | c :: rest =>
    if tripleHead (c :: rest) then some ([], rest.drop 2)
    else (splitAtClose rest).map (fun p => (c :: p.1, p.2))

/-- Leftmost complete ```` ```json ```` match: returns the suffix right
after the 7-character opening fence. -/
def findJsonFence (l : List Char) : Option (List Char) :=
  match l with
  | [] => none
  | c :: rest =>
    if jsonHeaderHead (c :: rest) && (splitAtClose ((c :: rest).drop 7)).isSome then
      some ((c :: rest).drop 7)
    else findJsonFence rest

/-- Leftmost complete plain ```` ``` ```` match: returns the suffix right
after the 3-character opening fence. -/
def findPlainFence (l : List Char) : Option (List Char) :=
  match l with
  | [] => none
  | c :: rest =>
    if tripleHead (c :: rest) && (splitAtClose ((c :: rest).drop 3)).isSome then
      some ((c :: rest).drop 3)
    else findPlainFence rest

/-- The capture group of the fence regex: the greedy `\s*` eats the
whitespace run after the opening fence, the lazy group stops at the first
closing fence. -/
def captureAfter (afterFence : List Char) : List Char :=
  ((splitAtClose (afterFence.dropWhile Char.isWhitespace)).map Prod.fst).getD []

/-- Everything between the opening and the first closing fence (no
whitespace skipping): the "body" of the fenced block. -/
def bodyAfter (afterFence : List Char) : List Char :=
  ((splitAtClose afterFence).map Prod.fst).getD []

/-- `text.match(jsonFence) ?? text.match(plainFence)`, reduced to the
capture group. -/
def fencedCapture (l : List Char) : Option (List Char) :=
  match findJsonFence l with
  | some afterFence => some (captureAfter afterFence)
  | none => (findPlainFence l).map captureAfter

/-- The fence bodies in the same preference order (used to state the
claim, which speaks about the body of the fenced block). -/
def fencedBody (l : List Char) : Option (List Char) :=
  match findJsonFence l with
  | some afterFence => some (bodyAfter afterFence)
  | none => (findPlainFence l).map bodyAfter

/-- `indexOf` of a character. -/
def indexOfChar (l : List Char) (c : Char) : Option Nat :=
  l.findIdx? (fun x => x == c)

/-- `lastIndexOf` of a character. -/
def lastIndexOfChar (l : List Char) (c : Char) : Option Nat :=
  (l.reverse.findIdx? (fun x => x == c)).map (fun i => l.length - 1 - i)

/-- `text.slice(a, b + 1).trim()`. -/
def sliceTrim (l : List Char) (a b : Nat) : List Char :=
  jsTrimList ((l.drop a).take (b + 1 - a))

/-- The bracket stage of `extractJsonPayload`: first `[` to last `]`, else
the whole text trimmed. -/
def bracketStage (l : List Char) : List Char :=
  match indexOfChar l '[', lastIndexOfChar l ']' with
  | some firstBracket, some lastBracket =>
    if firstBracket < lastBracket then sliceTrim l firstBracket lastBracket
    else jsTrimList l
  | _, _ => jsTrimList l

/-- The brace stage of `extractJsonPayload`: first `{` to last `}`, else
the bracket stage. -/
def braceStage (l : List Char) : List Char :=
  match indexOfChar l '{', lastIndexOfChar l '}' with
  | some firstBrace, some lastBrace =>
    if firstBrace < lastBrace then sliceTrim l firstBrace lastBrace
    else bracketStage l
  | _, _ => bracketStage l

/-- `extractJsonPayload` as the source computes it: a fence match with a
non-empty (truthy) capture group wins, else the brace/bracket slicing, else
the whole text trimmed. -/
def extractJsonPayload (text : String) : String :=
  let l := text.data
  match fencedCapture l with
  | some capture => if capture ≠ [] then ⟨jsTrimList capture⟩ else ⟨braceStage l⟩
  | none => ⟨braceStage l⟩

/-- The claim, verbatim: the trimmed body of the first fenced block
whenever one is present (no condition on the capture being non-empty),
else the brace/bracket slicing, else the whole text trimmed. -/
def extractJsonPayloadClaimed (text : String) : String :=
  let l := text.data
  match fencedBody l with
  | some body => ⟨jsTrimList body⟩
  | none => ⟨braceStage l⟩

/-- The claim, amended: the fenced body is used only when it is non-empty
after discarding the whitespace run that follows the opening fence;
otherwise the function falls through to the brace/bracket stages. -/
def extractJsonPayloadAmended (text : String) : String :=
  let l := text.data
  match fencedBody l with
  | some body =>
    if body.dropWhile Char.isWhitespace ≠ [] then ⟨jsTrimList body⟩ else ⟨braceStage l⟩
  | none => ⟨braceStage l⟩

/-! ## Heuristic fallback insights and the AI generators (`src/server/ai.ts`)

`generateSellerAiInsights`/`generateBuyerAiInsights` first compute the
heuristic fallback from the profile and offers, then overlay whatever the
LLM reply contributed.  The `Option Json` parameters stand for the
`callAiJson` results (`none` = the call failed or its reply could not be
parsed). -/

/-- `SellerAiInsights`. -/
structure SellerAiInsights where
  summary : List HighlightedInsight
  recommendedActions : List HighlightedInsight
  bundleIdeas : List HighlightedInsight
  restockAlerts : List HighlightedInsight
  deriving Repr, DecidableEq

/-- The `SELLER_STATUS_MOOD` table (total, so the `?? 'amber'` default is
never taken). -/
def sellerStatusMood (status : SellerStatus) : MoodColor :=
  match status with
  | .healthy => .green
  | .risk => .amber
  | .critical => .red

/-- String interpolation of a seller inventory status. -/
def sellerStatusText (status : SellerStatus) : String :=
  match status with
  | .healthy => "healthy"
  | .risk => "risk"
  | .critical => "critical"

/-- `fallbackSellerInsights`: heuristic seller coaching computed from the
profile and nearby offers alone. -/
def fallbackSellerInsights (profile : SellerProfile) (offers : List StoreOffer) :
    SellerAiInsights :=
  let riskyItems := profile.inventory.filter (fun item => item.status ≠ .healthy)
  let topSignals := profile.demandSignals.take 2
  let summary : List HighlightedInsight :=
    [ formatInsight "SKU COVERAGE" (if riskyItems.length ≠ 0 then .amber else .green)
        (toString profile.inventory.length ++ " tracked items • " ++
          toString riskyItems.length ++ " need action.")
    , formatInsight "DEMAND LIFT" .green
        (qToFixed0 (((topSignals.head?.map (fun signal => signal.expectedLift)).getD 0.18) * 100) ++
          "% upside forecast across " ++
          (let joined := String.intercalate ", " (topSignals.map (fun signal => signal.zip))
           if joined ≠ "" then joined else profile.store.zip) ++ ".") ]
  let recommendedActions : List HighlightedInsight :=
    [ (match riskyItems with
       | first :: _ =>
         formatInsight "SPOILAGE RISK" .red
           ("Launch " ++ ((offers.head?.map (fun offer => offer.description)).getD "flash bundle") ++
             " to move " ++ first.name ++ " within " ++ qToString (first.daysOnHand + 2) ++ " days.")
       | [] =>
         formatInsight "INVENTORY HEALTH" .green
           "All monitored SKUs look healthy — maintain cadence.")
    , formatInsight "SUPPLY SYNC" .amber
        ("Align vendors on " ++
          ((topSignals.head?.bind (fun signal => signal.focusItems.head?)).getD "seasonal produce") ++
          " ahead of " ++
          ((topSignals.head?.map (fun signal => signal.startDate)).getD "demand window") ++ ".")
    , formatInsight "BUYER ALIGNMENT" .green
        ("Feature " ++ ((offers.get? 1 |>.bind (fun offer => offer.items.head?)).getD "meal bundles") ++
          " in-app to match nearby buyer meal plans.") ]
  let bundleIdeas : List HighlightedInsight :=
    if offers.length > 0 then
      offers.map (fun offer =>
        formatInsight "BUNDLE IDEA" .green
          (offer.storeName ++ " × " ++ profile.store.name ++ ": " ++ offer.description))
    else
      [formatInsight "COMMUNITY EVENT" .amber
        "Partner with local CSA to feature farm boxes in-app."]
  let restockAlerts : List HighlightedInsight :=
    if riskyItems.length > 0 then
      riskyItems.map (fun item =>
        formatInsight item.name (sellerStatusMood item.status)
          (qToString item.daysOnHand ++ " days on hand • Status " ++
            sellerStatusText item.status ++ " • Margin " ++
            toString (jsRoundQ (item.margin * 100)) ++ "%."))
    else
      [formatInsight "FORECAST SCAN" .green
        "No critical risks detected — monitor lift in upcoming demand zips."]
  { summary := summary
    recommendedActions := recommendedActions
    bundleIdeas := bundleIdeas
    restockAlerts := restockAlerts }

/-- `generateSellerAiInsights`: heuristic fallback overlaid by the parsed
LLM payload; every empty (or missing) parsed section falls back. -/
def generateSellerAiInsights (profile : SellerProfile) (offers : List StoreOffer)
    (parsed : Option Json) : SellerAiInsights :=
  let fallback := fallbackSellerInsights profile offers
  match parsed with
  | none => fallback
  | some payload =>
    let summary := parseInsightArray (jfield payload "summary")
    let recommendedActions := parseInsightArray (jfield payload "recommendedActions")
    let bundleIdeas := parseInsightArray (jfield payload "bundleIdeas")
    let restockAlerts := parseInsightArray (jfield payload "restockAlerts")
    { summary := if summary.length ≠ 0 then summary else fallback.summary
      recommendedActions :=
        if recommendedActions.length ≠ 0 then recommendedActions
        else fallback.recommendedActions
      bundleIdeas := if bundleIdeas.length ≠ 0 then bundleIdeas else fallback.bundleIdeas
      restockAlerts :=
        if restockAlerts.length ≠ 0 then restockAlerts else fallback.restockAlerts }

/-- `BuyerAiInsights`. -/
structure BuyerAiInsights where
  heroSummary : String
  overviewCommentary : String
  kpiCallouts : List BuyerKpiCallout
  recommendations : List HighlightedInsight
  inventoryAnnotations : List InventoryAnnotation
  inventorySuggestions : List HighlightedInsight
  pantryNutrition : PantryNutritionSummary
  mealPlan : List MealPlanSuggestion
  dietSchedule : List DietScheduleSuggestion
  dealHighlights : List HighlightedInsight
  deriving Repr, DecidableEq

/-- The `BUYER_STATUS_MOOD` table (total, so the `?? 'amber'` default is
never taken). -/
def buyerStatusMood (status : InventoryStatus) : MoodColor :=
  match status with
  | .healthy => .green
  | .useSoon => .amber
  | .restock => .red
  | .overflow => .amber

/-- The `statusLabelMap` table (total, so the `?? replace` default is never
taken). -/
def buyerStatusLabel (status : InventoryStatus) : String :=
  match status with
  | .healthy => "Healthy"
  | .useSoon => "Use Soon"
  | .restock => "Restock Soon"
  | .overflow => "Overflow"

/-- `deriveCategoryLabel` from the buyer fallback. -/
def deriveCategoryLabel (item : BuyerInventoryItem) : String :=
  let category := jsToLower item.category
  let name := jsToLower item.name
  if strContains category "produce" || strContains category "vegetable" ||
      strContains category "greens" || strContains name "kale" ||
      strContains name "spinach" then "Fresh produce"
  else if strContains category "protein" || strContains name "tofu" ||
      strContains name "egg" || strContains name "chicken" ||
      strContains name "bean" || strContains name "lentil" then "Protein source"
  else if strContains category "grain" || strContains name "rice" ||
      strContains name "pasta" || strContains name "oat" then "Whole-grain staple"
  else if strContains category "snack" || strContains category "treat" then "Snack"
  else if strContains category "dairy" || strContains name "milk" ||
      strContains name "yogurt" then "Dairy & calcium"
  else "Pantry staple"

/-- `deriveSuggestion` from the buyer fallback. -/
def deriveSuggestion (item : BuyerInventoryItem) : Option String :=
  match item.status with
  | .useSoon =>
    some ("Use within " ++ toString (item.daysLeft.getD 2) ++
      " days — fold into quick meals or snacks.")
  | .restock => some "Add to this week’s shopping list to avoid low inventory."
  | .overflow => some "Plan recipes to work through extras before storage fills up."
  | .healthy => none

set_option maxHeartbeats 1000000 in
/-- `fallbackBuyerInsights`: heuristic buyer coaching computed from the
profile and nearby offers alone. -/
def fallbackBuyerInsights (profile : BuyerProfile) (offers : List StoreOffer) :
    BuyerAiInsights :=
  let expiring := profile.inventory.filter (fun item => item.status == .useSoon)
  let restock := profile.inventory.filter (fun item => item.status == .restock)
  let healthiest := profile.inventory.filter (fun item => item.status == .healthy)
  let hasInventory := profile.inventory.length > 0
  let recentSpend := (profile.purchases.take 3).foldl (fun sum item => sum + item.total) 0
  let budgetDelta := profile.budgetPerWeek - recentSpend
  let activeEvents := profile.events.length
  let upcomingNeeds := profile.events.flatMap (fun event =>
    (event.shoppingList.filter (fun item => item.status ≠ .covered)).map (fun item =>
      item.name ++ " • " ++ qToString item.quantity ++ " " ++ item.unit))
  let stapleNames :=
    let joined := String.intercalate ", " ((healthiest.take 2).map (fun item => item.name))
    if joined ≠ "" then joined else "pantry staples"
  let urgentNames := String.intercalate ", " ((expiring.take 2).map (fun item => item.name))
  let heroSummary :=
    if hasInventory then
      if urgentNames ≠ "" then
        "Good staples (" ++ stapleNames ++ ") but fresh items (" ++ urgentNames ++
          ") need immediate attention to prevent waste."
      else
        "Pantry staples (" ++ stapleNames ++
          ") look solid—keep rotating them into this week’s meals."
    else
      "Pantry is empty — add a few essentials to unlock smarter plans and budget tracking."
  let overviewCommentary :=
    if hasInventory then
      "Recent spend $" ++ qToFixed2 recentSpend ++ " of $" ++
        qToString profile.budgetPerWeek ++ " budget " ++
        (if budgetDelta ≥ 0 then "leaves room for targeted produce pickups."
         else "is running hot—lean on pantry items first.") ++ " " ++
        (if activeEvents > 0 then
          "Event readiness tracks " ++ toString activeEvents ++ " upcoming plan" ++
            (if activeEvents > 1 then "s" else "") ++ "."
         else "No events on deck—use the window for batch cooking.")
    else
      "Add what’s in your fridge or pantry so we can balance budgets, meal plans, and offers for you."
  let wasteMood :=
    if hasInventory then
      if expiring.length ≠ 0 then buyerStatusMood .useSoon else buyerStatusMood .healthy
    else MoodColor.amber
  let budgetMood : MoodColor := if budgetDelta ≥ 0 then .green else .amber
  let eventMood : MoodColor :=
    if activeEvents = 0 then .green
    else if upcomingNeeds.length > 0 then .amber
    else .green
  let kpiCallouts : List BuyerKpiCallout :=
    [ { metric := .pantryHealth
        headline := kpiHeadline .pantryHealth
        mood := if hasInventory then .green else .amber
        detail :=
          if hasInventory then
            toString profile.inventory.length ++ " tracked items • " ++
              toString expiring.length ++ " use-soon • " ++
              toString restock.length ++ " to restock."
          else
            "No pantry items logged yet — add a few staples to kickstart personalized coaching." }
    , { metric := .wasteRisk
        headline := kpiHeadline .wasteRisk
        mood := wasteMood
        detail :=
          if expiring.length > 0 then
            "High waste risk: " ++
              String.intercalate ", " ((expiring.take 2).map (fun item =>
                item.name ++ " (" ++ (item.expirationDate.getD "soon") ++ ")")) ++
              " need to be used first."
          else
            "Waste risk is low — keep rotating older items to maintain the score." }
    , { metric := .budgetHealth
        headline := kpiHeadline .budgetHealth
        mood := budgetMood
        detail :=
          if budgetDelta ≥ 0 then
            "Tracking under budget with $" ++ qToFixed2 |budgetDelta| ++
              " to spare for strategic produce or proteins."
          else
            "Spending exceeded budget by $" ++ qToFixed2 |budgetDelta| ++
              " — prioritize pantry-first meals this week." }
    , { metric := .eventReadiness
        headline := kpiHeadline .eventReadiness
        mood := eventMood
        detail :=
          if activeEvents > 0 then
            toString activeEvents ++ " upcoming plan" ++
              (if activeEvents > 1 then "s" else "") ++
              "; finalize menus and cover " ++
              (let joined := String.intercalate ", " (upcomingNeeds.take 3)
               if joined ≠ "" then joined else "remaining staples") ++
              " for full readiness."
          else
            "No events scheduled — use the flexibility to experiment with new meal prep routines." } ]
  let recommendations : List HighlightedInsight :=
    [ (if expiring.length ≠ 0 then
        formatInsight "USE EGGS & KALE" .red
          ("Plan meals around " ++
            String.intercalate " and " (expiring.map (fun item => item.name)) ++
            " in the next " ++
            toString ((expiring.head?.bind (fun item => item.daysLeft)).getD 2) ++ " days.")
       else
        formatInsight "INVENTORY CHECK" (if hasInventory then .green else .amber)
          (if hasInventory then "Quick shelf scan to confirm quantities keeps waste in check."
           else "Log staples like grains, legumes, and greens to unlock smarter tips."))
    , (if restock.length ≠ 0 then
        formatInsight "RESTOCK GREENS" (buyerStatusMood .restock)
          ("Add " ++ String.intercalate ", " (restock.map (fun item => item.name)) ++
            " to the next trip to keep meals balanced.")
       else
        formatInsight "KEEP ROTATING" (buyerStatusMood .healthy)
          (((healthiest.head?.map (fun item => item.name)).getD "Leafy greens") ++
            " are in great shape — feature them in upcoming meals."))
    , formatInsight "PLAN POTLUCK" .amber
        (if activeEvents > 0 then
          "Finalize potluck dishes and align shopping list with pantry items to minimize spend."
         else
          "No events scheduled — consider planning a gathering using pantry staples.") ]
  let offerHighlights := (offers.take 3).map (fun offer =>
    formatInsight (if offer.type == .bundle then "BUNDLE" else "MARKDOWN")
      (if offer.discountPercent ≥ 15 then .green else .amber)
      (offer.storeName ++ ": " ++ offer.description ++ " • Ends " ++ offer.validThrough ++ "."))
  let inventorySuggestions : List HighlightedInsight :=
    offerHighlights ++
      (if ¬hasInventory then
        [ formatInsight "STARTER STAPLES" .green
            "Add chickpeas, brown rice, and spinach for versatile bowls and salads."
        , formatInsight "LEAN PROTEIN" .green
            "Pick up tofu or rotisserie chicken from Fresh Grocer bundles for quick dinners." ]
       else [])
  let inventoryAnnotations : List InventoryAnnotation :=
    profile.inventory.map (fun item =>
      { name := item.name
        mood := buyerStatusMood item.status
        statusLabel := buyerStatusLabel item.status
        categoryLabel := deriveCategoryLabel item
        suggestion := deriveSuggestion item })
  let categoryList := profile.inventory.map (fun item => jsToLower item.category)
  let nameList := profile.inventory.map (fun item => jsToLower item.name)
  let produceCovered := categoryList.any (fun cat =>
    strContains cat "produce" || strContains cat "vegetable" ||
      strContains cat "greens" || strContains cat "fruit")
  let hasProtein :=
    nameList.any (fun name =>
      strContains name "egg" || strContains name "tofu" || strContains name "chickpea" ||
        strContains name "bean" || strContains name "lentil") ||
    categoryList.any (fun cat => strContains cat "protein")
  let hasWholeGrain :=
    nameList.any (fun name =>
      strContains name "rice" || strContains name "oat" || strContains name "quinoa") ||
    categoryList.any (fun cat => strContains cat "grain")
  let missingNutrients : List String :=
    (if ¬produceCovered then ["Fresh produce for vitamins A & C"] else []) ++
    (if ¬hasProtein then ["Lean protein options to balance meals"] else []) ++
    (if ¬hasWholeGrain then ["Whole grains for sustained energy"] else [])
  let nutritionRecommendations : List NutritionRecommendation :=
    (if missingNutrients.any (fun note => strContains note "Fresh produce") then
      [ { item := "Leafy greens mix"
          reason := "Boosts vitamins, fiber, and freshness alongside pantry grains."
          storeSuggestion :=
            match offers.head? with
            | some offer =>
              if offer.storeName ≠ "" then
                some ("Check " ++ offer.storeName ++ " produce bundles.")
              else none
            | none => none
          mood := .green } ]
     else []) ++
    (if missingNutrients.any (fun note => strContains note "Lean protein") then
      [ { item := "Plant-based protein"
          reason := "Adds versatile protein to balance legumes and grains."
          storeSuggestion :=
            match offers.get? 1 with
            | some offer =>
              if offer.storeName ≠ "" then
                some ("See " ++ offer.storeName ++ " markdowns.")
              else none
            | none => none
          mood := .amber } ]
     else []) ++
    (if missingNutrients.any (fun note => strContains note "Whole grains") then
      [ { item := "Whole-grain wraps"
          reason := "Supports quick lunches and balances macros."
          storeSuggestion :=
            match offers.head? with
            | some offer =>
              if offer.storeName ≠ "" then
                some ("Browse bakery aisle at " ++ offer.storeName ++ ".")
              else none
            | none => none
          mood := .green } ]
     else [])
  let nutritionRecommendations :=
    match nutritionRecommendations, offers.head? with
    | [], some offer =>
      [ { item := offer.items.head?.getD "Seasonal produce bundle"
          reason := "Adds freshness to current pantry-heavy meals."
          storeSuggestion :=
            some ("Leverage " ++ offer.storeName ++ " offer before " ++ offer.validThrough ++ ".")
          mood := .green } ]
    | recs, _ => recs
  let pantryNutrition : PantryNutritionSummary :=
    { macroBalance :=
        if hasInventory then
          "Pantry leans on " ++ jsToLower stapleNames ++
            " with plant proteins — pair with fresh greens to round out meals."
        else "Macro balance unavailable until pantry items are logged."
      missingNutrients := missingNutrients
      recommendedAdditions := nutritionRecommendations
      overallMood := if missingNutrients.length > 1 then .amber else .green
      nutritionGrid := none }
  let mealPlan : List MealPlanSuggestion :=
    [ { day := "Day 1"
        meals :=
          [ formatInsight "BREAKFAST" .green
              ("Greek yogurt parfait with " ++
                (if hasInventory then "pantry granola" else "local granola") ++ " and berries.")
          , formatInsight "LUNCH" .green
              ((if hasInventory then "Chickpea" else "Market") ++
                " grain bowl with roasted veggies and citrus dressing.")
          , formatInsight "DINNER" (if hasInventory then .amber else .green)
              ((if hasInventory then "Use-soon sweet potatoes" else "Roasted sweet potatoes") ++
                " with herb chimichurri.") ]
        addOns :=
          if hasInventory then none
          else some [formatInsight "GROCERY BOOST" .green
            "Pick up pre-washed greens & canned beans to support tomorrow’s meals."] }
    , { day := "Day 2"
        meals :=
          [ formatInsight "BREAKFAST" .green "Spinach smoothie with frozen fruit and flaxseed."
          , formatInsight "LUNCH" .green
              "Whole-grain wrap with hummus, crunchy veggies, and citrus slaw."
          , formatInsight "DINNER" .amber
              "One-pan tofu stir-fry featuring leafy greens and peppers." ]
        addOns :=
          if hasInventory then none
          else some [formatInsight "MARKET PICKUP" .green
            "Add stir-fry veggie pack + tofu from nearby markdowns."] }
    , { day := "Day 3"
        meals :=
          [ formatInsight "BRUNCH" .green "Veggie frittata with herbs and leftover roast veg."
          , formatInsight "SNACK" .green
              "Cranberry spritzer with sparkling water for hydration."
          , formatInsight "DINNER" .green
              "Sheet-pan citrus salmon with sweet potatoes (swap lentils if plant-based)." ]
        addOns :=
          if hasInventory then none
          else some [formatInsight "BUNDLE SAVE" .green
            "Grab omega-rich salmon or lentils from the Healthy Heart bundle."] } ]
  let dietSchedule : List DietScheduleSuggestion :=
    [ { day := "Day 1"
        focus := formatInsight "FIBER FOCUS" .green
          "Combine legumes with leafy greens to support digestion."
        tip := formatInsight "PROTEIN BOOST" .green
          "Add Greek yogurt or tofu to each meal to stay full." }
    , { day := "Day 2"
        focus := formatInsight "HYDRATION" .green
          "Sip infused water or spritzers between meals."
        tip := formatInsight "CARB BALANCE" .amber
          "Pair whole grains with veggies to stabilize energy." }
    , { day := "Day 3"
        focus := formatInsight "SOCIAL BALANCE" .green
          "Pre-portion servings before gatherings to stay on target."
        tip := formatInsight "TREAT SMART" .amber
          "Use fruit-forward desserts to curb sugar spikes." } ]
  let dealHighlights :=
    if offerHighlights.length > 0 then offerHighlights
    else [formatInsight "LOCAL TIP" .amber
      "Check Fresh Grocer weekly ad for produce bundles aligned to your meal plan."]
  let dealHighlights :=
    if ¬hasInventory ∧ dealHighlights.length < 3 then
      dealHighlights ++ [formatInsight "COMMUNITY CO-OP" .green
        "Join the Wakefern CSA pickup for seasonal produce under $25/week."]
    else dealHighlights
  let recommendations :=
    if recommendations.length < 3 then
      recommendations ++ [formatInsight "MEAL PREP" .green
        "Batch roast veggies on Sunday to simplify mid-week dinners."]
    else recommendations
  { heroSummary := heroSummary
    overviewCommentary := overviewCommentary
    kpiCallouts := kpiCallouts
    recommendations := recommendations
    inventoryAnnotations := inventoryAnnotations
    inventorySuggestions := inventorySuggestions
    pantryNutrition := pantryNutrition
    mealPlan := mealPlan
    dietSchedule := dietSchedule
    dealHighlights := dealHighlights }

/-- `generateBuyerAiInsights`: heuristic fallback overlaid by whatever the
three LLM replies (narrative, meal plan, nutrition rating) contributed;
every missing or empty AI-derived field falls back. -/
def generateBuyerAiInsights (profile : BuyerProfile) (offers : List StoreOffer)
    (narrative mealData nutritionData : Option Json) : BuyerAiInsights :=
  let fallback := fallbackBuyerInsights profile offers
  let mealPlan := match mealData with
    | some payload => parseMealPlan (jfield payload "mealPlan")
    | none => []
  let dietSchedule := match mealData with
    | some payload => parseDietSchedule (jfield payload "dietSchedule")
    | none => []
  let dealHighlights := match narrative with
    | some payload => parseInsightArray (jfield payload "dealHighlights")
    | none => []
  let heroSummary := match narrative with
    | some payload =>
      (match jget payload "heroSummary" with
       | some (.str s) => jsTrim s
       | _ => "")
    | none => ""
  let overviewCommentary := match narrative with
    | some payload =>
      (match jget payload "overviewCommentary" with
       | some (.str s) => jsTrim s
       | _ => "")
    | none => ""
  let kpiCallouts := match narrative with
    | some payload => parseKpiCallouts (jfield payload "kpiCallouts")
    | none => []
  let recommendations := match narrative with
    | some payload => parseInsightArray (jfield payload "recommendations")
    | none => []
  let inventoryAnnotations := match narrative with
    | some payload => parseInventoryAnnotations (jfield payload "inventoryAnnotations")
    | none => []
  let inventorySuggestions := match narrative with
    | some payload => parseInsightArray (jfield payload "inventorySuggestions")
    | none => []
  let parsedPantryNutrition := match narrative with
    | some payload => parsePantryNutrition (jfield payload "pantryNutrition")
    | none => none
  match nutritionData with
  | some nd =>
    let sumText := match jget nd "summaryText" with
      | some (.str s) => jsTrim s
      | _ => (parsedPantryNutrition.map (fun pn => pn.macroBalance)).getD ""
    let cats : List Json := match jget nd "categories" with
      | some (.arr elems) => elems
      | _ => []
    let missing : List String := match jget nd "potentialGaps" with
      | some (.arr elems) => jsStringCoerceList elems
      | _ => (parsedPantryNutrition.map (fun pn => pn.missingNutrients)).getD []
    let recs : List NutritionRecommendation := match jget nd "recommendedAdditions" with
      | some (.arr elems) =>
        elems.map (fun r =>
          { item := jsStringOrEmpty (jget r "item")
            reason := jsStringOrEmpty (jget r "reason")
            storeSuggestion :=
              match jget r "storeSuggestion" with
              | some v => if jsTruthy v then some (jsStringCoerce v) else none
              | none => none
            mood := ensureMood (some (match jget r "mood" with
              | none => Json.str "green"
              | some .null => Json.str "green"
              | some v => v)) .amber })
      | _ => (parsedPantryNutrition.map (fun pn => pn.recommendedAdditions)).getD []
    let totalScore : ℚ := cats.foldl (fun acc c =>
      acc + (match jget c "score" with
             | some (.num q) => q
             | _ => 0)) 0
    let avgScore : ℤ :=
      if cats.length ≠ 0 then jsRoundQ (totalScore / (cats.length : ℚ))
      else match parsedPantryNutrition with
        | some pn =>
          (match pn.nutritionGrid with
           | some grid =>
             jsRoundQ ((grid.foldl (fun a b => a + b.score) 0) / (grid.length : ℚ))
           | none => 72)
        | none => 72
    let overallMoodStr :=
      if avgScore ≥ 75 then "green" else if avgScore ≥ 45 then "amber" else "red"
    let nutritionGrid : List NutritionGridEntry := cats.map (fun c =>
      let score : ℚ := match jget c "score" with
        | some (.num q) => q
        | _ => 0
      let moodStr := if score ≥ 75 then "green" else if score ≥ 45 then "amber" else "red"
      { id := jsStringOrEmpty (jget c "id")
        label := jsStringOrEmpty (jget c "label")
        score := score
        mood := ensureMood (some (.str moodStr)) .amber })
    let aiPantryNutrition : PantryNutritionSummary :=
      { macroBalance :=
          if sumText ≠ "" then sumText
          else (parsedPantryNutrition.map (fun pn => pn.macroBalance)).getD ""
        missingNutrients := missing
        recommendedAdditions := recs
        overallMood := ensureMood (some (.str overallMoodStr)) .amber
        nutritionGrid := some nutritionGrid }
    { heroSummary := if heroSummary ≠ "" then heroSummary else fallback.heroSummary
      overviewCommentary :=
        if overviewCommentary ≠ "" then overviewCommentary else fallback.overviewCommentary
      kpiCallouts := if kpiCallouts.length ≠ 0 then kpiCallouts else fallback.kpiCallouts
      recommendations :=
        if recommendations.length ≠ 0 then recommendations else fallback.recommendations
      inventoryAnnotations :=
        if inventoryAnnotations.length ≠ 0 then inventoryAnnotations
        else fallback.inventoryAnnotations
      inventorySuggestions :=
        if inventorySuggestions.length ≠ 0 then inventorySuggestions
        else fallback.inventorySuggestions
      pantryNutrition := aiPantryNutrition
      dealHighlights :=
        if dealHighlights.length ≠ 0 then dealHighlights else fallback.dealHighlights
      mealPlan := if mealPlan.length ≠ 0 then mealPlan else fallback.mealPlan
      dietSchedule :=
        if dietSchedule.length ≠ 0 then dietSchedule else fallback.dietSchedule }
  | none =>
    { heroSummary := if heroSummary ≠ "" then heroSummary else fallback.heroSummary
      overviewCommentary :=
        if overviewCommentary ≠ "" then overviewCommentary else fallback.overviewCommentary
      kpiCallouts := if kpiCallouts.length ≠ 0 then kpiCallouts else fallback.kpiCallouts
      recommendations :=
        if recommendations.length ≠ 0 then recommendations else fallback.recommendations
      inventoryAnnotations :=
        if inventoryAnnotations.length ≠ 0 then inventoryAnnotations
        else fallback.inventoryAnnotations
      inventorySuggestions :=
        if inventorySuggestions.length ≠ 0 then inventorySuggestions
        else fallback.inventorySuggestions
      pantryNutrition := parsedPantryNutrition.getD fallback.pantryNutrition
      dealHighlights :=
        if dealHighlights.length ≠ 0 then dealHighlights else fallback.dealHighlights
      mealPlan := if mealPlan.length ≠ 0 then mealPlan else fallback.mealPlan
      dietSchedule :=
        if dietSchedule.length ≠ 0 then dietSchedule else fallback.dietSchedule }

/-! ## Shared helper lemmas -/

theorem jsFindIndex_of_find? {α : Type} (p : α → Bool) :
    ∀ (l : List α) (a : α), l.find? p = some a →
      ∃ i, jsFindIndex p l = some i ∧ l.get? i = some a := by
  intro l
  induction l with
  | nil => intro a h; simp [List.find?] at h
  | cons x rest ih =>
    intro a h
    by_cases hx : p x
    · refine ⟨0, by simp [jsFindIndex, hx], ?_⟩
      rw [List.find?_cons_of_pos _ hx] at h
      simp at h
      simp [h]
    · rw [List.find?_cons_of_neg _ hx] at h
      obtain ⟨i, hfi, hget⟩ := ih a h
      exact ⟨i + 1, by simp [jsFindIndex, hx, hfi], by simpa using hget⟩

theorem jsFindIndex_eq_none {α : Type} (p : α → Bool) :
    ∀ l : List α, l.find? p = none → jsFindIndex p l = none := by
  intro l
  induction l with
  | nil => intro _; rfl
  | cons x rest ih =>
    intro h
    by_cases hx : p x
    · rw [List.find?_cons_of_pos _ hx] at h; exact absurd h (by simp)
    · rw [List.find?_cons_of_neg _ hx] at h
      simp [jsFindIndex, hx, ih h]

theorem find?_append_none {α : Type} (p : α → Bool) :
    ∀ (l l' : List α), l.find? p = none → (l ++ l').find? p = l'.find? p := by
  intro l
  induction l with
  | nil => intro l' _; rfl
  | cons x rest ih =>
    intro l' h
    by_cases hx : p x
    · rw [List.find?_cons_of_pos _ hx] at h; exact absurd h (by simp)
    · rw [List.find?_cons_of_neg _ hx] at h
      rw [List.cons_append, List.find?_cons_of_neg _ hx]
      exact ih l' h

/-! ## C1: heuristic fallback when the LLM is unavailable -/

/-- C1: whenever the external LLM call is unavailable, fails, or its reply
cannot be parsed into usable JSON (`callAiJson` returns `null` for every
prompt, modelled by the `none` arguments), `generateSellerAiInsights`
returns exactly `fallbackSellerInsights profile offers`, and
`generateBuyerAiInsights` returns a result each of whose fields equals the
corresponding field of `fallbackBuyerInsights profile offers` (here all
AI-derived values are missing, so the results coincide outright). -/
theorem ai_unavailable_falls_back (bp : BuyerProfile) (sp : SellerProfile)
    (buyerOffers sellerOffers : List StoreOffer) :
    generateSellerAiInsights sp sellerOffers none = fallbackSellerInsights sp sellerOffers
    ∧ generateBuyerAiInsights bp buyerOffers none none none =
        fallbackBuyerInsights bp buyerOffers := by
  constructor
  · rfl
  · rfl

/-! ## C2: `extractJsonPayload` -/

theorem dropWhile_idem {α : Type} (p : α → Bool) :
    ∀ l : List α, (l.dropWhile p).dropWhile p = l.dropWhile p := by
  intro l
  induction l with
  | nil => rfl
  | cons x rest ih =>
    by_cases hx : p x
    · simp [List.dropWhile_cons, hx, ih]
    · simp [List.dropWhile_cons, hx]

theorem jsTrimList_dropWhile (l : List Char) :
    jsTrimList (l.dropWhile Char.isWhitespace) = jsTrimList l := by
  simp [jsTrimList, dropWhile_idem]

theorem tripleHead_not_ws {c : Char} {rest : List Char}
    (h : tripleHead (c :: rest) = true) : Char.isWhitespace c = false := by
  match rest with
  | [] => simp [tripleHead] at h
  | [_] => simp [tripleHead] at h
  | b :: d :: _ =>
    simp only [tripleHead, Bool.and_eq_true, beq_iff_eq] at h
    rw [h.1.1]
    decide

theorem splitAtClose_dropWhile :
    ∀ l : List Char,
      splitAtClose (l.dropWhile Char.isWhitespace) =
        (splitAtClose l).map (fun p => (p.1.dropWhile Char.isWhitespace, p.2)) := by
  intro l
  induction l with
  | nil => rfl
  | cons c rest ih =>
    by_cases ht : tripleHead (c :: rest)
    · have hc := tripleHead_not_ws ht
      rw [List.dropWhile_cons]
      simp only [hc, Bool.false_eq_true, if_false]
      simp [splitAtClose, ht]
    · by_cases hc : Char.isWhitespace c
      · rw [List.dropWhile_cons]
        simp only [hc, if_true]
        rw [ih]
        simp only [splitAtClose, ht, if_false]
        cases hs : splitAtClose rest with
        | none => simp
        | some p => simp [List.dropWhile_cons, hc]
      · rw [List.dropWhile_cons]
        simp only [hc, Bool.false_eq_true, if_false]
        simp only [splitAtClose, ht, if_false]
        cases hs : splitAtClose rest with
        | none => simp
        | some p => simp [List.dropWhile_cons, hc]

theorem captureAfter_eq_body (afterFence : List Char) :
    captureAfter afterFence = (bodyAfter afterFence).dropWhile Char.isWhitespace := by
  unfold captureAfter bodyAfter
  rw [splitAtClose_dropWhile]
  cases hs : splitAtClose afterFence with
  | none => simp
  | some p => simp

/-- C2 (amended): `extractJsonPayload` follows the claimed preference order
(first ```` ```json ```` fence, then plain ```` ``` ```` fence, then brace
slice, then bracket slice, then the whole text trimmed), except that a
fenced block is used only when its body is non-empty after the whitespace
run following the opening fence — an empty capture group is falsy, so the
function falls through to the brace/bracket stages. -/
theorem extractJsonPayload_spec (text : String) :
    extractJsonPayload text = extractJsonPayloadAmended text := by
  unfold extractJsonPayload extractJsonPayloadAmended fencedCapture fencedBody
  cases hj : findJsonFence text.data with
  | some afterFence =>
    simp only [hj, captureAfter_eq_body, jsTrimList_dropWhile]
  | none =>
    cases hp : findPlainFence text.data with
    | none => simp only [hj, hp, Option.map_none']
    | some afterFence =>
      simp only [hj, hp, Option.map_some', captureAfter_eq_body, jsTrimList_dropWhile]

/-- C2 counterexample to the claim as stated: on the text `"``````"` (six
backticks) a plain fenced block with an empty body is present, so the claim
requires the trimmed body `""`; the code instead treats the empty capture
group as falsy and returns the whole text trimmed. -/
theorem extractJsonPayload_counterexample :
    extractJsonPayload "``````" = "``````"
    ∧ extractJsonPayloadClaimed "``````" = ""
    ∧ ("``````" : String) ≠ "" := by
  refine ⟨?_, ?_, ?_⟩
  · rfl
  · rfl
  · decide

/-! ## C3: well-formedness of parsed insights -/

theorem exists_str_iff (o : Option Json) (P : String → Prop) :
    (∃ k, o = some (.str k) ∧ P k) ↔
      (match o with
       | some (.str s) => P s
       | _ => False) := by
  cases o with
  | none => simp
  | some v => cases v <;> simp

theorem string_mk_ne_empty {l : List Char} (h : l ≠ []) : (⟨l⟩ : String) ≠ "" := by
  intro he
  apply h
  have : (⟨l⟩ : String).data = ("" : String).data := by rw [he]
  simpa using this

theorem jsToUpper_ne_empty {s : String} (h : s ≠ "") : jsToUpper s ≠ "" := by
  have hdata : s.data ≠ [] := by
    intro hd
    apply h
    cases s with
    | mk data => cases hd; rfl
  apply string_mk_ne_empty
  simp only [ne_eq, List.map_eq_nil_iff]
  exact hdata

theorem mood_cases (m : MoodColor) : m = .green ∨ m = .amber ∨ m = .red := by
  cases m <;> simp

theorem ensureMood_amber_of_unrecognized (o : Option Json)
    (h : ¬ ∃ s, o = some (.str s) ∧
        (jsToLower s = "green" ∨ jsToLower s = "amber" ∨ jsToLower s = "red")) :
    ensureMood o .amber = .amber := by
  cases o with
  | none => rfl
  | some v =>
    cases v with
    | str s =>
      have h1 : ¬ jsToLower s = "green" := fun he => h ⟨s, rfl, Or.inl he⟩
      have h2 : ¬ jsToLower s = "amber" := fun he => h ⟨s, rfl, Or.inr (Or.inl he)⟩
      have h3 : ¬ jsToLower s = "red" := fun he => h ⟨s, rfl, Or.inr (Or.inr he)⟩
      simp [ensureMood, h1, h2, h3]
    | null => rfl
    | bool b => rfl
    | num q => rfl
    | arr elems => rfl
    | obj fields => rfl

theorem parseInsight_eq_none_iff (e : Json) :
    parseInsight e = none ↔
      ¬ (isTruthyObject e = true
          ∧ (∃ k, jget e "keyword" = some (.str k) ∧ jsTrim k ≠ "")
          ∧ (∃ d, jget e "detail" = some (.str d) ∧ jsTrim d ≠ "")) := by
  by_cases ho : isTruthyObject e
  · rcases hk : jget e "keyword" with _ | kv
    · simp [parseInsight, ho, hk]
    · rcases hd : jget e "detail" with _ | dv
      · cases kv <;> simp [parseInsight, ho, hk, hd]
      · cases kv <;> cases dv <;>
          simp [parseInsight, ho, hk, hd]
  · simp [parseInsight, ho]

theorem parseInsight_some_shape (e : Json) (i : HighlightedInsight)
    (h : parseInsight e = some i) :
    (∃ k, jget e "keyword" = some (.str k) ∧ jsTrim k ≠ ""
        ∧ i.keyword = jsToUpper (jsTrim k))
    ∧ (∃ d, jget e "detail" = some (.str d) ∧ jsTrim d ≠ "" ∧ i.detail = jsTrim d)
    ∧ i.mood = ensureMood (jget e "mood") .amber := by
  by_cases ho : isTruthyObject e
  · rcases hk : jget e "keyword" with _ | kv
    · simp [parseInsight, ho, hk] at h
    · rcases hd : jget e "detail" with _ | dv
      · cases kv <;> simp [parseInsight, ho, hk, hd] at h
      · cases kv <;> cases dv <;> simp [parseInsight, ho, hk, hd] at h
        next ks ds =>
          by_cases hke : jsTrim ks = ""
          · simp [hke] at h
          · by_cases hde : jsTrim ds = ""
            · simp [hke, hde] at h
            · simp [hke, hde] at h
              refine ⟨⟨ks, rfl, hke, ?_⟩, ⟨ds, rfl, hde, ?_⟩, ?_⟩ <;> simp [← h]
  · simp [parseInsight, ho] at h

/-- C3: every `HighlightedInsight` produced from a parsed LLM reply is
well-formed: `parseInsightArray` drops exactly the entries that are not
(truthy) objects or lack a non-empty-after-trimming string keyword or
detail, and every insight it returns carries a trimmed upper-cased
non-empty keyword, a trimmed non-empty detail, and a mood among
green/amber/red, with any missing or unrecognized mood coerced to amber. -/
theorem parseInsightArray_wellFormed (entries : List Json) :
    parseInsightArray (.arr entries) = entries.filterMap parseInsight
    ∧ (∀ e ∈ entries, parseInsight e = none ↔
        ¬ (isTruthyObject e = true
            ∧ (∃ k, jget e "keyword" = some (.str k) ∧ jsTrim k ≠ "")
            ∧ (∃ d, jget e "detail" = some (.str d) ∧ jsTrim d ≠ "")))
    ∧ (∀ i ∈ parseInsightArray (.arr entries),
        (∃ k, i.keyword = jsToUpper (jsTrim k)) ∧ i.keyword ≠ ""
        ∧ (∃ d, i.detail = jsTrim d) ∧ i.detail ≠ ""
        ∧ (i.mood = .green ∨ i.mood = .amber ∨ i.mood = .red))
    ∧ (∀ e i, parseInsight e = some i →
        (¬ ∃ s, jget e "mood" = some (.str s) ∧
            (jsToLower s = "green" ∨ jsToLower s = "amber" ∨ jsToLower s = "red")) →
        i.mood = .amber) := by
  refine ⟨rfl, ?_, ?_, ?_⟩
  · intro e _
    exact parseInsight_eq_none_iff e
  · intro i hi
    rw [parseInsightArray] at hi
    rw [List.mem_filterMap] at hi
    obtain ⟨e, _, he⟩ := hi
    obtain ⟨⟨k, _, hk, hik⟩, ⟨d, _, hd, hid⟩, _⟩ := parseInsight_some_shape e i he
    exact ⟨⟨k, hik⟩, hik ▸ jsToUpper_ne_empty hk, ⟨d, hid⟩, hid ▸ hd, mood_cases i.mood⟩
  · intro e i he hmood
    obtain ⟨_, _, hm⟩ := parseInsight_some_shape e i he
    rw [hm]
    exact ensureMood_amber_of_unrecognized _ hmood

/-- A concrete raw LLM insight entry used to instantiate the C3 theorem. -/
def c3WitnessEntry : Json :=
  .obj [("keyword", .str " kale "), ("detail", .str " use soon "), ("mood", .str "GREEN")]

/-- C3 witness: the well-formedness conclusion instantiated at a concrete
parsed entry. -/
theorem parseInsightArray_wellFormed_witness :
    (∃ k, ({ keyword := "KALE", mood := .green, detail := "use soon" } :
        HighlightedInsight).keyword = jsToUpper (jsTrim k))
    ∧ ({ keyword := "KALE", mood := .green, detail := "use soon" } :
        HighlightedInsight).keyword ≠ ""
    ∧ (∃ d, ({ keyword := "KALE", mood := .green, detail := "use soon" } :
        HighlightedInsight).detail = jsTrim d)
    ∧ ({ keyword := "KALE", mood := .green, detail := "use soon" } :
        HighlightedInsight).detail ≠ ""
    ∧ (({ keyword := "KALE", mood := .green, detail := "use soon" } :
        HighlightedInsight).mood = .green
       ∨ ({ keyword := "KALE", mood := .green, detail := "use soon" } :
        HighlightedInsight).mood = .amber
       ∨ ({ keyword := "KALE", mood := .green, detail := "use soon" } :
        HighlightedInsight).mood = .red) :=
  (parseInsightArray_wellFormed [c3WitnessEntry]).2.2.1
    { keyword := "KALE", mood := .green, detail := "use soon" } (by decide)

/-! ## C4: authentication -/

theorem emailEqCI_iff (a b : String) : emailEqCI a b = true ↔ jsToLower a = jsToLower b :=
  beq_iff_eq

theorem email_unique_mem :
    ∀ users : List UserRecord,
      users.Pairwise (fun a b => jsToLower a.email ≠ jsToLower b.email) →
      ∀ u v : UserRecord, u ∈ users → v ∈ users →
        jsToLower u.email = jsToLower v.email → u = v := by
  intro users
  induction users with
  | nil => intro _ u v hu _ _; cases hu
  | cons a rest ih =>
    intro huniq u v hu hv he
    rw [List.pairwise_cons] at huniq
    rcases List.mem_cons.mp hu with rfl | hu'
    · rcases List.mem_cons.mp hv with rfl | hv'
      · rfl
      · exact absurd he (huniq.1 v hv')
    · rcases List.mem_cons.mp hv with rfl | hv'
      · exact absurd he.symm (huniq.1 u hu')
      · exact ih huniq.2 u v hu' hv' he

/-- C4: `authenticateUser` succeeds iff the payload email and password are
non-empty, the role is `buyer` or `seller`, and the user store (whose
emails are case-insensitively unique, the spec's natural-key invariant)
contains a record matching the email case-insensitively with the same role
and the exact password; on success it returns that record's id, display
name and role, and otherwise it fails with a non-empty error message. -/
theorem authenticateUser_correct (stores : Stores) (today : JsDate)
    (payload : LoginPayload)
    (huniq : stores.users.Pairwise (fun a b => jsToLower a.email ≠ jsToLower b.email)) :
    ((∃ id name role, (authenticateUser stores today payload).1 = .ok id name role) ↔
      (payload.email ≠ "" ∧ payload.password ≠ ""
        ∧ (payload.role = "buyer" ∨ payload.role = "seller")
        ∧ ∃ u ∈ stores.users, emailEqCI u.email payload.email = true
            ∧ u.role = payload.role ∧ u.password = payload.password))
    ∧ (∀ u ∈ stores.users, emailEqCI u.email payload.email = true →
        u.role = payload.role → u.password = payload.password →
        payload.email ≠ "" → payload.password ≠ "" →
        (payload.role = "buyer" ∨ payload.role = "seller") →
        (authenticateUser stores today payload).1 = .ok u.id u.displayName u.role)
    ∧ (¬ (payload.email ≠ "" ∧ payload.password ≠ ""
          ∧ (payload.role = "buyer" ∨ payload.role = "seller")
          ∧ ∃ u ∈ stores.users, emailEqCI u.email payload.email = true
              ∧ u.role = payload.role ∧ u.password = payload.password) →
        ∃ e, (authenticateUser stores today payload).1 = .fail e ∧ e ≠ "") := by
  by_cases h1 : payload.email = "" ∨ payload.password = ""
  · have hres : (authenticateUser stores today payload).1 =
        .fail "Email and password are required." := by
      simp [authenticateUser, h1]
    refine ⟨?_, ?_, ?_⟩
    · constructor
      · intro ⟨id, name, role, hok⟩
        rw [hres] at hok
        cases hok
      · intro ⟨he, hp, _⟩
        rcases h1 with h1 | h1
        · exact absurd h1 he
        · exact absurd h1 hp
    · intro u _ _ _ _ he hp _
      rcases h1 with h1 | h1
      · exact absurd h1 he
      · exact absurd h1 hp
    · intro _
      exact ⟨_, hres, by decide⟩
  · push_neg at h1
    by_cases h2 : payload.role ≠ "buyer" ∧ payload.role ≠ "seller"
    · have hres : (authenticateUser stores today payload).1 =
          .fail "Unsupported account role." := by
        simp [authenticateUser, h1.1, h1.2, h2.1, h2.2]
      refine ⟨?_, ?_, ?_⟩
      · constructor
        · intro ⟨id, name, role, hok⟩
          rw [hres] at hok
          cases hok
        · intro ⟨_, _, hrole, _⟩
          rcases hrole with hr | hr
          · exact absurd hr h2.1
          · exact absurd hr h2.2
      · intro u _ _ _ _ _ _ hrole
        rcases hrole with hr | hr
        · exact absurd hr h2.1
        · exact absurd hr h2.2
      · intro _
        exact ⟨_, hres, by decide⟩
    · have hrole : payload.role = "buyer" ∨ payload.role = "seller" := by
        by_cases hb : payload.role = "buyer"
        · exact Or.inl hb
        · right
          by_contra hs
          exact h2 ⟨hb, hs⟩
      cases hf : findUserByEmail stores.users payload.email with
      | none =>
        have hnone : ∀ u ∈ stores.users, ¬ emailEqCI u.email payload.email = true := by
          have := List.find?_eq_none.mp hf
          intro u hu
          simpa using this u hu
        have hres : (authenticateUser stores today payload).1 =
            .fail "No account matches those credentials." := by
          simp [authenticateUser, h1.1, h1.2, h2, hf]
        refine ⟨?_, ?_, ?_⟩
        · constructor
          · intro ⟨id, name, role, hok⟩
            rw [hres] at hok
            cases hok
          · intro ⟨_, _, _, u, hu, hci, _⟩
            exact absurd hci (hnone u hu)
        · intro u hu hci _ _ _ _ _
          exact absurd hci (hnone u hu)
        · intro _
          exact ⟨_, hres, by decide⟩
      | some u =>
        have hf' : stores.users.find?
            (fun user => emailEqCI user.email payload.email) = some u := hf
        have humem : u ∈ stores.users := List.mem_of_find?_eq_some hf'
        have huci0 := List.find?_some hf'
        have huci : emailEqCI u.email payload.email = true := by simpa using huci0
        have huniq' : ∀ v ∈ stores.users, emailEqCI v.email payload.email = true → v = u := by
          intro v hv hvci
          exact email_unique_mem stores.users huniq v u hv humem
            ((emailEqCI_iff _ _).mp hvci ▸ ((emailEqCI_iff _ _).mp huci).symm ▸ rfl)
        by_cases hr : u.role = payload.role
        · by_cases hpw : u.password = payload.password
          · have hres : (authenticateUser stores today payload).1 =
                .ok u.id u.displayName u.role := by
              unfold authenticateUser
              rw [if_neg (by simp [h1.1, h1.2]), if_neg h2, hf]
              dsimp only
              rw [if_neg (by simp [hr]), if_neg (by simp [hpw])]
              by_cases hb : u.role = "buyer"
              · rw [if_pos hb]
              · rw [if_neg hb]
            refine ⟨?_, ?_, ?_⟩
            · constructor
              · intro _
                exact ⟨h1.1, h1.2, hrole, u, humem, huci, hr, hpw⟩
              · intro _
                exact ⟨u.id, u.displayName, u.role, hres⟩
            · intro v hv hvci _ _ _ _ _
              have hvu := huniq' v hv hvci
              rw [hvu]
              exact hres
            · intro hc
              exact absurd ⟨h1.1, h1.2, hrole, u, humem, huci, hr, hpw⟩ hc
          · have hres : (authenticateUser stores today payload).1 =
                .fail "Incorrect login credentials." := by
              unfold authenticateUser
              rw [if_neg (by simp [h1.1, h1.2]), if_neg h2, hf]
              dsimp only
              rw [if_neg (by simp [hr]), if_pos (by simp [hpw])]
            have hnomatch : ¬ ∃ v ∈ stores.users, emailEqCI v.email payload.email = true
                ∧ v.role = payload.role ∧ v.password = payload.password := by
              intro ⟨v, hv, hvci, _, hvpw⟩
              rw [huniq' v hv hvci] at hvpw
              exact hpw hvpw
            refine ⟨?_, ?_, ?_⟩
            · constructor
              · intro ⟨id, name, role, hok⟩
                rw [hres] at hok
                cases hok
              · intro ⟨_, _, _, hex⟩
                exact absurd hex hnomatch
            · intro v hv hvci hvr hvpw _ _ _
              exact absurd ⟨v, hv, hvci, hvr, hvpw⟩ hnomatch
            · intro _
              exact ⟨_, hres, by decide⟩
        · have hres : (authenticateUser stores today payload).1 =
              .fail "No account matches those credentials." := by
            unfold authenticateUser
            rw [if_neg (by simp [h1.1, h1.2]), if_neg h2, hf]
            dsimp only
            rw [if_pos (by simp [hr])]
          have hnomatch : ¬ ∃ v ∈ stores.users, emailEqCI v.email payload.email = true
              ∧ v.role = payload.role ∧ v.password = payload.password := by
            intro ⟨v, hv, hvci, hvr, _⟩
            rw [huniq' v hv hvci] at hvr
            exact hr hvr
          refine ⟨?_, ?_, ?_⟩
          · constructor
            · intro ⟨id, name, role, hok⟩
              rw [hres] at hok
              cases hok
            · intro ⟨_, _, _, hex⟩
              exact absurd hex hnomatch
          · intro v hv hvci hvr hvpw _ _ _
            exact absurd ⟨v, hv, hvci, hvr, hvpw⟩ hnomatch
          · intro _
            exact ⟨_, hres, by decide⟩

/-- The seeded demo accounts of the in-memory user store. -/
def demoUsers : List UserRecord :=
  [ { id := "buyer-001", email := "buyer@example.com", password := "buyer123",
      displayName := "Buyer Beta", role := "buyer" }
  , { id := "seller-001", email := "seller@example.com", password := "seller123",
      displayName := "Seller Sigma", role := "seller" } ]

/-- A store state holding the demo accounts and no profiles. -/
def demoStores : Stores :=
  { users := demoUsers, buyers := [], sellers := [] }

/-- C4 witness: the demo buyer account logs in successfully. -/
theorem authenticateUser_correct_witness :
    (authenticateUser demoStores ⟨20737, "2026-10-11"⟩
      { email := "buyer@example.com", password := "buyer123", role := "buyer" }).1 =
      .ok "buyer-001" "Buyer Beta" "buyer" :=
  (authenticateUser_correct demoStores ⟨20737, "2026-10-11"⟩
      { email := "buyer@example.com", password := "buyer123", role := "buyer" }
      (by decide)).2.1
    { id := "buyer-001", email := "buyer@example.com", password := "buyer123",
      displayName := "Buyer Beta", role := "buyer" }
    (by decide) (by decide) (by decide) (by decide) (by decide) (by decide) (by decide)

/-! ## C5: signup and email uniqueness -/

theorem dropWhile_rdropWhile_dropWhile (p : Char → Bool) (l : List Char) :
    List.dropWhile p (List.rdropWhile p (List.dropWhile p l)) =
      List.rdropWhile p (List.dropWhile p l) := by
  rw [List.dropWhile_eq_self_iff]
  intro hl
  obtain ⟨t, ht⟩ := List.rdropWhile_prefix p (List.dropWhile p l)
  have hlen : 0 < (List.dropWhile p l).length := by
    rw [← ht, List.length_append]
    omega
  have hq : (List.rdropWhile p (List.dropWhile p l)).get? 0 =
      (List.dropWhile p l).get? 0 := by
    conv_rhs => rw [← ht]
    exact (List.get?_append hl).symm
  rw [List.get?_eq_get hl, List.get?_eq_get hlen] at hq
  rw [Option.some.inj hq]
  exact List.dropWhile_get_zero_not p l hlen

theorem jsTrimList_eq_rdropWhile (l : List Char) :
    jsTrimList l = List.rdropWhile Char.isWhitespace (l.dropWhile Char.isWhitespace) := rfl

theorem jsTrimList_idem (l : List Char) : jsTrimList (jsTrimList l) = jsTrimList l := by
  rw [jsTrimList_eq_rdropWhile, jsTrimList_eq_rdropWhile,
    dropWhile_rdropWhile_dropWhile]
  exact List.rdropWhile_idempotent _ _

theorem jsTrim_idem (s : String) : jsTrim (jsTrim s) = jsTrim s := by
  cases s with
  | mk data => simp only [jsTrim, jsTrimList_idem]

/-- C5 (amended): user emails are unique.  For a payload with non-empty
trimmed email and password and a valid role: when the trimmed email matches
a stored user's email case-insensitively, `registerUser` fails with
"Account already exists. Please sign in instead." and leaves the user store
unchanged (payloads failing basic validation fail earlier, with a different
message); otherwise exactly one new user is appended carrying the trimmed
email, trimmed password, role, and trimmed display name — defaulting to the
part of the email before `@`, or to "New user" when that part is empty. -/
theorem registerUser_email_unique (stores : Stores) (today : JsDate) (uuid : String)
    (payload : SignupPayload)
    (hemail : jsTrim payload.email ≠ "") (hpassword : jsTrim payload.password ≠ "")
    (hrole : payload.role = "buyer" ∨ payload.role = "seller") :
    ((∃ u ∈ stores.users, emailEqCI u.email (jsTrim payload.email) = true) →
      (registerUser stores today uuid payload).1 =
          .fail "Account already exists. Please sign in instead."
        ∧ ((registerUser stores today uuid payload).2).users = stores.users)
    ∧ ((¬ ∃ u ∈ stores.users, emailEqCI u.email (jsTrim payload.email) = true) →
      ∃ newUser : UserRecord,
        ((registerUser stores today uuid payload).2).users = stores.users ++ [newUser]
        ∧ (registerUser stores today uuid payload).1 =
            .ok newUser.id newUser.displayName newUser.role
        ∧ newUser.email = jsTrim payload.email
        ∧ newUser.password = jsTrim payload.password
        ∧ newUser.role = payload.role
        ∧ newUser.displayName =
            (match payload.displayName with
             | some d =>
               if jsTrim d ≠ "" then jsTrim d
               else if emailLocalPart (jsTrim payload.email) ≠ "" then
                 emailLocalPart (jsTrim payload.email)
               else "New user"
             | none =>
               if emailLocalPart (jsTrim payload.email) ≠ "" then
                 emailLocalPart (jsTrim payload.email)
               else "New user")) := by
  have hvalid : ¬ (jsTrim payload.email = "" ∨ jsTrim payload.password = "") := by
    simp [hemail, hpassword]
  have hrole' : ¬ (payload.role ≠ "buyer" ∧ payload.role ≠ "seller") := by
    rcases hrole with h | h <;> simp [h]
  constructor
  · intro ⟨u, hu, hci⟩
    have hfind : ∃ v, findUserByEmail stores.users (jsTrim payload.email) = some v := by
      cases hf : findUserByEmail stores.users (jsTrim payload.email) with
      | none =>
        have := List.find?_eq_none.mp hf u hu
        simp [hci] at this
      | some v => exact ⟨v, rfl⟩
    obtain ⟨v, hf⟩ := hfind
    constructor
    · unfold registerUser
      rw [if_neg hvalid, if_neg hrole', hf]
    · unfold registerUser
      rw [if_neg hvalid, if_neg hrole', hf]
  · intro hnone
    have hf : findUserByEmail stores.users (jsTrim payload.email) = none := by
      cases hf : findUserByEmail stores.users (jsTrim payload.email) with
      | none => rfl
      | some v =>
        have hf' : stores.users.find?
            (fun user => emailEqCI user.email (jsTrim payload.email)) = some v := hf
        exact absurd ⟨v, List.mem_of_find?_eq_some hf',
          by simpa using List.find?_some hf'⟩ hnone
    refine ⟨(createUser stores.users uuid (jsTrim payload.email) (jsTrim payload.password)
        payload.role (payload.displayName.map jsTrim)).1, ?_, ?_, rfl, rfl, rfl, ?_⟩
    · unfold registerUser
      rw [if_neg hvalid, if_neg hrole', hf]
      dsimp only
      split <;> rfl
    · unfold registerUser
      rw [if_neg hvalid, if_neg hrole', hf]
      dsimp only
      split <;> rfl
    · cases hd : payload.displayName with
      | none => rfl
      | some d =>
        show (if jsTrim (jsTrim d) ≠ "" then jsTrim (jsTrim d) else _) = _
        rw [jsTrim_idem]

/-- C5 counterexample to the claim as stated: (a) a payload whose trimmed
email matches a stored account but whose password is empty fails with
"Email and password are required.", not "Account already exists. Please
sign in instead."; (b) for a fresh email whose local part (before `@`) is
empty, the appended user's display name is "New user", not the empty local
part the claim describes. -/
theorem registerUser_counterexample :
    (registerUser demoStores ⟨20737, "2026-10-11"⟩ "uuid-1"
      { email := " buyer@example.com ", password := "", role := "buyer",
        displayName := none }).1 = .fail "Email and password are required."
    ∧ (AuthResult.fail "Email and password are required." ≠
        AuthResult.fail "Account already exists. Please sign in instead.")
    ∧ (∃ u ∈ demoStores.users, emailEqCI u.email (jsTrim " buyer@example.com ") = true)
    ∧ ((((registerUser demoStores ⟨20737, "2026-10-11"⟩ "uuid-2"
        { email := "@example.org", password := "pw", role := "buyer",
          displayName := none }).2).users.getLast?).map (fun u => u.displayName) =
        some "New user")
    ∧ emailLocalPart "@example.org" = ""
    ∧ ("New user" : String) ≠ "" := by
  refine ⟨?_, by decide, ?_, ?_, by decide, by decide⟩
  · rfl
  · decide
  · rfl

/-- C5 witness: a valid signup payload whose trimmed email collides
case-insensitively with the seeded demo buyer is rejected with the
duplicate-account message and leaves the user store unchanged. -/
theorem registerUser_email_unique_witness :
    (registerUser demoStores ⟨20737, "2026-10-11"⟩ "uuid-3"
      { email := " Buyer@Example.com ", password := "pw123", role := "buyer",
        displayName := none }).1 =
        .fail "Account already exists. Please sign in instead."
    ∧ ((registerUser demoStores ⟨20737, "2026-10-11"⟩ "uuid-3"
      { email := " Buyer@Example.com ", password := "pw123", role := "buyer",
        displayName := none }).2).users = demoStores.users :=
  (registerUser_email_unique demoStores ⟨20737, "2026-10-11"⟩ "uuid-3"
      { email := " Buyer@Example.com ", password := "pw123", role := "buyer",
        displayName := none }
      (by decide) (by decide) (by decide)).1
    ⟨{ id := "buyer-001", email := "buyer@example.com", password := "buyer123",
       displayName := "Buyer Beta", role := "buyer" }, by decide, by decide⟩

/-! ## C6: derived inventory status -/

/-- The status derivation exactly as the claim states it: a function of
only the input quantity and the expiration date (via `daysLeft`). -/
def claimedStatus (quantity : ℚ) (daysLeft : Option Int) : InventoryStatus :=
  match daysLeft with
  | some d =>
    if d ≤ 3 then .useSoon
    else if quantity ≤ 0.5 then .restock
    else if d > 40 then .overflow
    else .healthy
  | none => if quantity ≤ 0.5 then .restock else .healthy

theorem upsertBuyerProfile_fst (profiles : List BuyerProfile) (profile : BuyerProfile) :
    (upsertBuyerProfile profiles profile).1 = profile := by
  unfold upsertBuyerProfile
  split <;> rfl

theorem upsertSellerProfile_fst (profiles : List SellerProfile) (profile : SellerProfile) :
    (upsertSellerProfile profiles profile).1 = profile := by
  unfold upsertSellerProfile
  split <;> rfl

theorem deriveStatus_eq_claimed (daysLeft : Option Int) (quantity : ℚ) :
    deriveStatus daysLeft (some quantity) = claimedStatus quantity daysLeft := by
  cases daysLeft <;> simp [deriveStatus, claimedStatus]

/-- C6: the status of every appended buyer inventory item is a function of
only the input quantity and the expiration date: `use-soon` when a date is
given and `daysLeft ≤ 3` (with `daysLeft = max 0 (days from today to the
date)`), else `restock` when the quantity is at most 0.5, else `overflow`
when a date is given and `daysLeft > 40`, else `healthy`. -/
theorem appendBuyerInventoryItem_status (profiles : List BuyerProfile)
    (today : JsDate) (newId : String) (input : BuyerInventoryInput)
    (out : BuyerProfile × List BuyerProfile)
    (h : appendBuyerInventoryItem profiles today newId input = .ok out) :
    ∃ prev item,
      getBuyerProfile profiles input.userId = some prev
      ∧ out.1.inventory = prev.inventory ++ [item]
      ∧ item.status = claimedStatus input.quantity
          (input.expirationDate.map (fun e => max 0 (differenceInDays e.days today.days))) := by
  cases hg : getBuyerProfile profiles input.userId with
  | none =>
    unfold appendBuyerInventoryItem at h
    rw [hg] at h
    cases h
  | some prev =>
    unfold appendBuyerInventoryItem at h
    rw [hg] at h
    dsimp only at h
    obtain rfl := Except.ok.inj h
    refine ⟨prev, _, rfl, by rw [upsertBuyerProfile_fst], ?_⟩
    exact deriveStatus_eq_claimed _ _

/-- The model clock used by the concrete store instances below. -/
def wToday : JsDate := ⟨20737, "2026-10-11"⟩

/-- A store holding one freshly scaffolded buyer profile. -/
def wBuyerStore : List BuyerProfile := [buyerScaffold "u1" "User One" wToday]

/-- A concrete append input: one gallon of milk expiring in two days. -/
def wInput : BuyerInventoryInput :=
  { userId := "u1", name := "Milk", quantity := 1, unit := "gallon",
    category := "dairy", expirationDate := some ⟨20739, "2026-10-13"⟩,
    estimatedValue := none }

/-- The item the append is expected to store. -/
def wExpectedItem : BuyerInventoryItem :=
  { id := "inv-1", name := "Milk", quantity := 1, unit := "gallon",
    category := "dairy", status := .useSoon, addedOn := "2026-10-11",
    expirationDate := some "2026-10-13", daysLeft := some 2,
    estimatedValue := none, notes := none }

/-- The profile the append is expected to produce. -/
def wExpectedProfile : BuyerProfile :=
  { buyerScaffold "u1" "User One" wToday with inventory := [wExpectedItem] }

theorem wAppend_eval :
    appendBuyerInventoryItem wBuyerStore wToday "inv-1" wInput =
      .ok (wExpectedProfile, [wExpectedProfile]) := by
  have hdiff : differenceInDays 20739 20737 = 2 := by
    simp only [differenceInDays]
    norm_num
  simp [appendBuyerInventoryItem, getBuyerProfile, wBuyerStore, wInput, wToday,
    buyerScaffold, upsertBuyerProfile, jsFindIndex, deriveStatus, hdiff,
    wExpectedProfile, wExpectedItem]

/-- C6 witness: the status conclusion instantiated at the concrete append
above (two days to expiry, quantity 1 gives `use-soon`). -/
theorem appendBuyerInventoryItem_status_witness :
    ∃ prev item,
      getBuyerProfile wBuyerStore wInput.userId = some prev
      ∧ wExpectedProfile.inventory = prev.inventory ++ [item]
      ∧ item.status = claimedStatus wInput.quantity
          (wInput.expirationDate.map (fun e => max 0 (differenceInDays e.days wToday.days))) :=
  appendBuyerInventoryItem_status wBuyerStore wToday "inv-1" wInput
    (wExpectedProfile, [wExpectedProfile]) wAppend_eval

/-! ## C7: `lastUpdated` on mutation -/

/-- C7 counterexample to the claim as stated: `upsertBuyerProfile` stores
the given profile verbatim and never consults the clock, so upserting a
profile whose `lastUpdated` is `2020-01-01` leaves that stale date in the
store no matter what the current date (say `2026-10-11`) is. -/
theorem upsertBuyerProfile_counterexample :
    (((upsertBuyerProfile [] (buyerScaffold "u1" "User One"
        ⟨18262, "2020-01-01"⟩)).2.head?).map (fun p => p.lastUpdated)) =
      some "2020-01-01"
    ∧ ("2020-01-01" : String) ≠ "2026-10-11" := by
  constructor
  · rfl
  · decide

/-- C7 (amended): append-item, remove-item and the seller add-entry refresh
the mutated profile's `lastUpdated` to the current date; the upserts store
the profile exactly as given (their callers are responsible for setting
`lastUpdated`). -/
theorem mutations_refresh_lastUpdated (buyers : List BuyerProfile)
    (sellers : List SellerProfile) (today : JsDate) (newId : String) :
    (∀ (input : BuyerInventoryInput) (out : BuyerProfile × List BuyerProfile),
      appendBuyerInventoryItem buyers today newId input = .ok out →
        out.1.lastUpdated = today.iso)
    ∧ (∀ (userId inventoryId : String) (out : BuyerProfile × List BuyerProfile),
      removeBuyerInventoryItem buyers today userId inventoryId = .ok out →
        out.1.lastUpdated = today.iso)
    ∧ (∀ (userId : String) (item : SellerInventoryEntryInput)
        (out : SellerProfile × List SellerProfile),
      addSellerInventoryEntry sellers today userId item = .ok out →
        out.1.lastUpdated = today.iso)
    ∧ (∀ p : BuyerProfile, (upsertBuyerProfile buyers p).1 = p)
    ∧ (∀ p : SellerProfile, (upsertSellerProfile sellers p).1 = p) := by
  refine ⟨?_, ?_, ?_, fun p => upsertBuyerProfile_fst buyers p,
    fun p => upsertSellerProfile_fst sellers p⟩
  · intro input out h
    cases hg : getBuyerProfile buyers input.userId with
    | none =>
      unfold appendBuyerInventoryItem at h
      rw [hg] at h
      cases h
    | some prev =>
      unfold appendBuyerInventoryItem at h
      rw [hg] at h
      dsimp only at h
      obtain rfl := Except.ok.inj h
      rw [upsertBuyerProfile_fst]
  · intro userId inventoryId out h
    cases hg : getBuyerProfile buyers userId with
    | none =>
      unfold removeBuyerInventoryItem at h
      rw [hg] at h
      cases h
    | some prev =>
      unfold removeBuyerInventoryItem at h
      rw [hg] at h
      dsimp only at h
      obtain rfl := Except.ok.inj h
      rw [upsertBuyerProfile_fst]
  · intro userId item out h
    cases hg : getSellerProfile sellers userId with
    | none =>
      unfold addSellerInventoryEntry at h
      rw [hg] at h
      cases h
    | some prev =>
      unfold addSellerInventoryEntry at h
      rw [hg] at h
      dsimp only at h
      obtain rfl := Except.ok.inj h
      rw [upsertSellerProfile_fst]

/-- C7 witness: the concrete append from the C6 development lands with
`lastUpdated` equal to the current date. -/
theorem mutations_refresh_lastUpdated_witness :
    wExpectedProfile.lastUpdated = "2026-10-11" :=
  (mutations_refresh_lastUpdated wBuyerStore [] wToday "inv-1").1 wInput
    (wExpectedProfile, [wExpectedProfile]) wAppend_eval

/-! ## C8: frame property of inventory removal -/

/-- C8: removing an inventory id produces a profile whose inventory is
exactly the previous one with every matching item filtered out, leaves all
other profile fields except `lastUpdated` unchanged, and replaces only that
profile's slot in the store, leaving every other stored profile intact. -/
theorem removeBuyerInventoryItem_frame (profiles : List BuyerProfile) (today : JsDate)
    (userId inventoryId : String) (prev : BuyerProfile)
    (h : getBuyerProfile profiles userId = some prev) :
    ∃ updated store',
      removeBuyerInventoryItem profiles today userId inventoryId = .ok (updated, store')
      ∧ updated.inventory = prev.inventory.filter (fun item => item.id ≠ inventoryId)
      ∧ updated.userId = prev.userId
      ∧ updated.displayName = prev.displayName
      ∧ updated.zip = prev.zip
      ∧ updated.householdSize = prev.householdSize
      ∧ updated.dietaryPreferences = prev.dietaryPreferences
      ∧ updated.activityLevel = prev.activityLevel
      ∧ updated.budgetPerWeek = prev.budgetPerWeek
      ∧ updated.calorieTarget = prev.calorieTarget
      ∧ updated.goals = prev.goals
      ∧ updated.purchases = prev.purchases
      ∧ updated.events = prev.events
      ∧ ∃ i, profiles.get? i = some prev
          ∧ store'.length = profiles.length
          ∧ store'.get? i = some updated
          ∧ ∀ j, j ≠ i → store'.get? j = profiles.get? j := by
  have h' : profiles.find? (fun profile => profile.userId == userId) = some prev := h
  have hprevId : prev.userId = userId := by
    have := List.find?_some h'
    simpa using this
  obtain ⟨i, hidx, hget⟩ := jsFindIndex_of_find? _ _ _ h'
  have hidx' : jsFindIndex (fun existing => existing.userId == prev.userId) profiles =
      some i := by
    rw [hprevId]
    exact hidx
  obtain ⟨hlt, _⟩ := List.get?_eq_some.mp hget
  refine ⟨{ prev with
      inventory := prev.inventory.filter (fun it => it.id ≠ inventoryId),
      lastUpdated := today.iso },
    profiles.set i { prev with
      inventory := prev.inventory.filter (fun it => it.id ≠ inventoryId),
      lastUpdated := today.iso },
    ?_, rfl, rfl, rfl, rfl, rfl, rfl, rfl, rfl, rfl, rfl, rfl, rfl,
    ⟨i, hget, ?_, ?_, ?_⟩⟩
  · unfold removeBuyerInventoryItem
    rw [h]
    dsimp only
    unfold upsertBuyerProfile
    rw [show jsFindIndex (fun existing => existing.userId ==
        ({ prev with
            inventory := prev.inventory.filter (fun it => it.id ≠ inventoryId),
            lastUpdated := today.iso } : BuyerProfile).userId) profiles = some i
      from hidx']
  · exact List.length_set profiles i _
  · exact List.get?_set_eq_of_lt _ hlt
  · intro j hj
    exact List.get?_set_ne _ _ (Ne.symm hj)

/-- C8 witness: the frame conclusion instantiated at the concrete
single-profile store from the C6 development. -/
theorem removeBuyerInventoryItem_frame_witness :
    ∃ updated store',
      removeBuyerInventoryItem wBuyerStore wToday "u1" "inv-9" = .ok (updated, store')
      ∧ updated.inventory = (buyerScaffold "u1" "User One" wToday).inventory.filter
          (fun item => item.id ≠ "inv-9") := by
  obtain ⟨updated, store', h1, h2, _⟩ :=
    removeBuyerInventoryItem_frame wBuyerStore wToday "u1" "inv-9"
      (buyerScaffold "u1" "User One" wToday) rfl
  exact ⟨updated, store', h1, h2⟩

/-! ## C9: idempotent profile provisioning -/

theorem ensure_present_after (profiles : List BuyerProfile)
    (userId displayName : String) (today : JsDate) :
    ∃ p, getBuyerProfile
      (ensureBuyerProfileForUser profiles userId displayName today).2 userId = some p := by
  cases hg : getBuyerProfile profiles userId with
  | some existing =>
    refine ⟨existing, ?_⟩
    unfold ensureBuyerProfileForUser
    rw [hg]
    exact hg
  | none =>
    unfold ensureBuyerProfileForUser
    rw [hg]
    dsimp only
    unfold upsertBuyerProfile
    have hnone : jsFindIndex (fun existing =>
        existing.userId == (buyerScaffold userId displayName today).userId) profiles =
          none :=
      jsFindIndex_eq_none _ profiles hg
    rw [hnone]
    refine ⟨buyerScaffold userId displayName today, ?_⟩
    unfold getBuyerProfile
    rw [find?_append_none _ profiles _ hg]
    simp [List.find?, buyerScaffold]

theorem ensure_present_after_seller (profiles : List SellerProfile)
    (userId displayName : String) (today : JsDate) :
    ∃ p, getSellerProfile
      (ensureSellerProfileForUser profiles userId displayName today).2 userId = some p := by
  cases hg : getSellerProfile profiles userId with
  | some existing =>
    refine ⟨existing, ?_⟩
    unfold ensureSellerProfileForUser
    rw [hg]
    exact hg
  | none =>
    unfold ensureSellerProfileForUser
    rw [hg]
    dsimp only
    unfold upsertSellerProfile
    have hnone : jsFindIndex (fun existing =>
        existing.userId == (sellerScaffold userId displayName today).userId) profiles =
          none :=
      jsFindIndex_eq_none _ profiles hg
    rw [hnone]
    refine ⟨sellerScaffold userId displayName today, ?_⟩
    unfold getSellerProfile
    rw [find?_append_none _ profiles _ hg]
    simp [List.find?, sellerScaffold]

/-- C9: profile provisioning is idempotent: with a profile already stored,
the ensure functions return it unchanged and leave the store untouched;
with none stored they create and persist the default scaffold (empty
collections, zip `07030`, every goal set to 60); and every successful
login (`authenticateUser`) and every successful signup (`registerUser`)
leaves a profile in place for the authenticated user. -/
theorem ensureProfile_idempotent (buyers : List BuyerProfile)
    (sellers : List SellerProfile) (userId displayName : String) (today : JsDate) :
    (∀ p, getBuyerProfile buyers userId = some p →
      ensureBuyerProfileForUser buyers userId displayName today = (p, buyers))
    ∧ (getBuyerProfile buyers userId = none →
      ensureBuyerProfileForUser buyers userId displayName today =
        (buyerScaffold userId displayName today,
          buyers ++ [buyerScaffold userId displayName today])
      ∧ (buyerScaffold userId displayName today).inventory = []
      ∧ (buyerScaffold userId displayName today).purchases = []
      ∧ (buyerScaffold userId displayName today).events = []
      ∧ (buyerScaffold userId displayName today).zip = "07030"
      ∧ (buyerScaffold userId displayName today).goals =
          { reduceWaste := 60, saveBudget := 60, eatHealthy := 60 })
    ∧ (∀ p, getSellerProfile sellers userId = some p →
      ensureSellerProfileForUser sellers userId displayName today = (p, sellers))
    ∧ (getSellerProfile sellers userId = none →
      ensureSellerProfileForUser sellers userId displayName today =
        (sellerScaffold userId displayName today,
          sellers ++ [sellerScaffold userId displayName today])
      ∧ (sellerScaffold userId displayName today).inventory = []
      ∧ (sellerScaffold userId displayName today).demandSignals = []
      ∧ (sellerScaffold userId displayName today).promotions = []
      ∧ (sellerScaffold userId displayName today).store.zip = "07030"
      ∧ (sellerScaffold userId displayName today).goals =
          { reduceSpoilage := 60, increaseSellThrough := 60, growBundles := 60 })
    ∧ (∀ (stores : Stores) (payload : LoginPayload) (id name role : String)
        (stores' : Stores),
      authenticateUser stores today payload = (.ok id name role, stores') →
        (role = "buyer" → ∃ p, getBuyerProfile stores'.buyers id = some p)
        ∧ (role = "seller" → ∃ p, getSellerProfile stores'.sellers id = some p))
    ∧ (∀ (stores : Stores) (uuid : String) (payload : SignupPayload)
        (id name role : String) (stores' : Stores),
      registerUser stores today uuid payload = (.ok id name role, stores') →
        (role = "buyer" → ∃ p, getBuyerProfile stores'.buyers id = some p)
        ∧ (role = "seller" → ∃ p, getSellerProfile stores'.sellers id = some p)) := by
  refine ⟨?_, ?_, ?_, ?_, ?_, ?_⟩
  · intro p hp
    unfold ensureBuyerProfileForUser
    rw [hp]
  · intro hnone
    refine ⟨?_, rfl, rfl, rfl, rfl, rfl⟩
    unfold ensureBuyerProfileForUser
    rw [hnone]
    dsimp only
    unfold upsertBuyerProfile
    have hn : jsFindIndex (fun existing =>
        existing.userId == (buyerScaffold userId displayName today).userId) buyers =
          none :=
      jsFindIndex_eq_none _ buyers hnone
    rw [hn]
  · intro p hp
    unfold ensureSellerProfileForUser
    rw [hp]
  · intro hnone
    refine ⟨?_, rfl, rfl, rfl, rfl, rfl⟩
    unfold ensureSellerProfileForUser
    rw [hnone]
    dsimp only
    unfold upsertSellerProfile
    have hn : jsFindIndex (fun existing =>
        existing.userId == (sellerScaffold userId displayName today).userId) sellers =
          none :=
      jsFindIndex_eq_none _ sellers hnone
    rw [hn]
  · intro stores payload id name role stores' h
    unfold authenticateUser at h
    by_cases h1 : payload.email = "" ∨ payload.password = ""
    · rw [if_pos h1] at h
      cases congrArg Prod.fst h
    · rw [if_neg h1] at h
      by_cases h2 : payload.role ≠ "buyer" ∧ payload.role ≠ "seller"
      · rw [if_pos h2] at h
        cases congrArg Prod.fst h
      · rw [if_neg h2] at h
        cases hf : findUserByEmail stores.users payload.email with
        | none =>
          rw [hf] at h
          cases congrArg Prod.fst h
        | some user =>
          rw [hf] at h
          dsimp only at h
          by_cases hr : user.role ≠ payload.role
          · rw [if_pos hr] at h
            cases congrArg Prod.fst h
          · rw [if_neg hr] at h
            by_cases hpw : user.password ≠ payload.password
            · rw [if_pos hpw] at h
              cases congrArg Prod.fst h
            · rw [if_neg hpw] at h
              by_cases hb : user.role = "buyer"
              · rw [if_pos hb] at h
                have hid : id = user.id := by
                  have := congrArg Prod.fst h
                  cases this
                  rfl
                have hrole : role = user.role := by
                  have := congrArg Prod.fst h
                  cases this
                  rfl
                have hstores : stores' =
                    { stores with buyers := (ensureBuyerProfileForUser stores.buyers
                        user.id user.displayName today).2 } := by
                  have := congrArg Prod.snd h
                  exact this.symm
                constructor
                · intro _
                  rw [hstores, hid]
                  exact ensure_present_after stores.buyers user.id user.displayName today
                · intro hs
                  rw [hrole, hb] at hs
                  exact absurd hs (by decide)
              · rw [if_neg hb] at h
                have hid : id = user.id := by
                  have := congrArg Prod.fst h
                  cases this
                  rfl
                have hrole : role = user.role := by
                  have := congrArg Prod.fst h
                  cases this
                  rfl
                have hstores : stores' =
                    { stores with sellers := (ensureSellerProfileForUser stores.sellers
                        user.id user.displayName today).2 } := by
                  have := congrArg Prod.snd h
                  exact this.symm
                constructor
                · intro hs
                  rw [hrole] at hs
                  exact absurd hs hb
                · intro _
                  rw [hstores, hid]
                  exact ensure_present_after_seller stores.sellers user.id
                    user.displayName today
  · intro stores uuid payload id name role stores' h
    unfold registerUser at h
    by_cases h1 : jsTrim payload.email = "" ∨ jsTrim payload.password = ""
    · rw [if_pos h1] at h
      cases congrArg Prod.fst h
    · rw [if_neg h1] at h
      by_cases h2 : payload.role ≠ "buyer" ∧ payload.role ≠ "seller"
      · rw [if_pos h2] at h
        cases congrArg Prod.fst h
      · rw [if_neg h2] at h
        cases hf : findUserByEmail stores.users (jsTrim payload.email) with
        | some u =>
          rw [hf] at h
          cases congrArg Prod.fst h
        | none =>
          rw [hf] at h
          dsimp only at h
          generalize hc : createUser stores.users uuid (jsTrim payload.email)
            (jsTrim payload.password) payload.role
            (Option.map jsTrim payload.displayName) = created at h
          by_cases hb : created.1.role = "buyer"
          · rw [if_pos hb] at h
            have hid : id = created.1.id := by
              have := congrArg Prod.fst h
              cases this
              rfl
            have hrole : role = created.1.role := by
              have := congrArg Prod.fst h
              cases this
              rfl
            have hstores : stores' =
                { stores with
                    users := created.2
                    buyers := (ensureBuyerProfileForUser stores.buyers
                      created.1.id created.1.displayName today).2 } := by
              have := congrArg Prod.snd h
              exact this.symm
            constructor
            · intro _
              rw [hstores, hid]
              exact ensure_present_after stores.buyers created.1.id
                created.1.displayName today
            · intro hs
              rw [hrole, hb] at hs
              exact absurd hs (by decide)
          · rw [if_neg hb] at h
            have hid : id = created.1.id := by
              have := congrArg Prod.fst h
              cases this
              rfl
            have hrole : role = created.1.role := by
              have := congrArg Prod.fst h
              cases this
              rfl
            have hstores : stores' =
                { stores with
                    users := created.2
                    sellers := (ensureSellerProfileForUser stores.sellers
                      created.1.id created.1.displayName today).2 } := by
              have := congrArg Prod.snd h
              exact this.symm
            constructor
            · intro hs
              rw [hrole] at hs
              exact absurd hs hb
            · intro _
              rw [hstores, hid]
              exact ensure_present_after_seller stores.sellers created.1.id
                created.1.displayName today

/-- C9 witness: re-ensuring the already scaffolded concrete profile returns
it unchanged and leaves the store untouched. -/
theorem ensureProfile_idempotent_witness :
    ensureBuyerProfileForUser wBuyerStore "u1" "User One" wToday =
      (buyerScaffold "u1" "User One" wToday, wBuyerStore) :=
  (ensureProfile_idempotent wBuyerStore [] "u1" "User One" wToday).1
    (buyerScaffold "u1" "User One" wToday) rfl

/-! ## C10: dashboard metric ranges -/

theorem isScore_clampScore_num (q : ℚ) : isScore (clampScore (.num q)) := by
  refine ⟨Max.max 0 (Min.min 100 ⌊q + 1 / 2⌋), ?_, le_max_left _ _, ?_⟩
  · simp only [clampScore, JNum.round, JNum.min, JNum.max]
    push_cast
    rfl
  · have h1 : Min.min (100 : ℤ) ⌊q + 1 / 2⌋ ≤ 100 := min_le_left _ _
    omega

/-- C10 (amended): every dashboard metric is an integer between 0 and 100,
for every seller profile unconditionally, and for every buyer profile
except in the one case the code leaves unguarded — `budgetPerWeek = 0`
together with a zero recent spend, where the budget ratio is `0 / 0` and
`budgetHealth` is `NaN`. -/
theorem metrics_in_range (bp : BuyerProfile) (sp : SellerProfile)
    (h : ¬ (bp.budgetPerWeek = 0 ∧ buyerRecentSpend bp = 0)) :
    isScore (computeBuyerMetrics bp).wasteRisk
    ∧ isScore (computeBuyerMetrics bp).pantryHealth
    ∧ isScore (computeBuyerMetrics bp).budgetHealth
    ∧ isScore (computeBuyerMetrics bp).eventReadiness
    ∧ isScore (computeSellerMetrics sp).sellThrough
    ∧ isScore (computeSellerMetrics sp).spoilageRisk
    ∧ isScore (computeSellerMetrics sp).promotionMomentum
    ∧ isScore (computeSellerMetrics sp).demandConfidence := by
  have hscore0 : isScore (JNum.num 0) := ⟨0, by norm_num, by norm_num, by norm_num⟩
  have hscore50 : isScore (JNum.num 50) := ⟨50, by norm_num, by norm_num, by norm_num⟩
  refine ⟨?_, ?_, ?_, ?_, ?_, ?_, ?_, ?_⟩
  · exact isScore_clampScore_num _
  · show isScore (if bp.inventory.length = 0 then JNum.num 0 else _)
    by_cases ht : bp.inventory.length = 0
    · rw [if_pos ht]
      exact hscore0
    · rw [if_neg ht]
      exact isScore_clampScore_num _
  · show isScore (clampScore (JNum.sub (.num 100)
      (JNum.mul (qdivJ (buyerRecentSpend bp - bp.budgetPerWeek) bp.budgetPerWeek)
        (.num 40))))
    by_cases hb : bp.budgetPerWeek = 0
    · have hs : buyerRecentSpend bp ≠ 0 := fun hz => h ⟨hb, hz⟩
      rcases lt_or_gt_of_ne hs with hneg | hpos
      · have hdiv : qdivJ (buyerRecentSpend bp - bp.budgetPerWeek) bp.budgetPerWeek =
            .ninf := by
          unfold qdivJ
          rw [if_neg (by simp [hb]), if_neg (by rw [hb]; simpa using hs),
            if_neg (by rw [hb]; push_neg; linarith)]
        rw [hdiv]
        have : JNum.mul JNum.ninf (.num 40) = .ninf := by
          simp [JNum.mul, show ¬ (40 : ℚ) = 0 by norm_num, show (0 : ℚ) < 40 by norm_num]
        rw [this]
        show isScore (clampScore (JNum.add (.num 100) (JNum.neg .ninf)))
        show isScore (clampScore JNum.inf)
        show isScore (JNum.num (Max.max 0 100))
        exact ⟨100, by norm_num, by norm_num, by norm_num⟩
      · have hdiv : qdivJ (buyerRecentSpend bp - bp.budgetPerWeek) bp.budgetPerWeek =
            .inf := by
          unfold qdivJ
          rw [if_neg (by simp [hb]), if_neg (by rw [hb]; simpa using hs),
            if_pos (by rw [hb]; simpa using hpos)]
        rw [hdiv]
        have : JNum.mul JNum.inf (.num 40) = .inf := by
          simp [JNum.mul, show ¬ (40 : ℚ) = 0 by norm_num, show (0 : ℚ) < 40 by norm_num]
        rw [this]
        show isScore (clampScore (JNum.add (.num 100) (JNum.neg .inf)))
        show isScore (clampScore JNum.ninf)
        show isScore (JNum.num 0)
        exact hscore0
    · have hdiv : qdivJ (buyerRecentSpend bp - bp.budgetPerWeek) bp.budgetPerWeek =
          .num ((buyerRecentSpend bp - bp.budgetPerWeek) / bp.budgetPerWeek) := by
        unfold qdivJ
        rw [if_pos hb]
      rw [hdiv]
      show isScore (clampScore (JNum.add (.num 100) (JNum.neg (.num _))))
      exact isScore_clampScore_num _
  · show isScore (if bp.events.length = 0 then JNum.num 50 else _)
    by_cases ht : bp.events.length = 0
    · rw [if_pos ht]
      exact hscore50
    · rw [if_neg ht]
      exact isScore_clampScore_num _
  · exact isScore_clampScore_num _
  · exact isScore_clampScore_num _
  · exact isScore_clampScore_num _
  · exact isScore_clampScore_num _

/-- A stored buyer profile with a zero weekly budget and no purchases
(perfectly representable in the JSON profile file). -/
def zeroBudgetBuyer : BuyerProfile :=
  { buyerScaffold "nb" "No Budget" wToday with budgetPerWeek := 0 }

/-- C10 counterexample to the claim as stated: with `budgetPerWeek = 0` and
no purchases the budget ratio is `0 / 0 = NaN`, which `Math.round`,
`Math.min` and `Math.max` all propagate, so `budgetHealth` is `NaN` — not
an integer in `[0, 100]`. -/
theorem computeBuyerMetrics_counterexample :
    (computeBuyerMetrics zeroBudgetBuyer).budgetHealth = .nan
    ∧ ¬ isScore (computeBuyerMetrics zeroBudgetBuyer).budgetHealth := by
  have hb : (computeBuyerMetrics zeroBudgetBuyer).budgetHealth = JNum.nan := by
    show clampScore (JNum.sub (.num 100)
      (JNum.mul (qdivJ (buyerRecentSpend zeroBudgetBuyer - zeroBudgetBuyer.budgetPerWeek)
        zeroBudgetBuyer.budgetPerWeek) (.num 40))) = JNum.nan
    have h0 : buyerRecentSpend zeroBudgetBuyer = 0 := rfl
    have hbud : zeroBudgetBuyer.budgetPerWeek = 0 := rfl
    rw [h0, hbud]
    have hdiv : qdivJ ((0 : ℚ) - 0) 0 = .nan := by
      unfold qdivJ
      rw [if_neg (by norm_num), if_pos (by norm_num)]
    rw [hdiv]
    rfl
  refine ⟨hb, ?_⟩
  rw [hb]
  rintro ⟨n, hn, -, -⟩
  cases hn

/-- C10 witness: the metric bounds instantiated at the freshly scaffolded
buyer and seller profiles (empty inventories, purchases, events, signals
and promotions). -/
theorem metrics_in_range_witness :
    isScore (computeBuyerMetrics (buyerScaffold "u1" "User One" wToday)).wasteRisk
    ∧ isScore (computeBuyerMetrics (buyerScaffold "u1" "User One" wToday)).pantryHealth
    ∧ isScore (computeBuyerMetrics (buyerScaffold "u1" "User One" wToday)).budgetHealth
    ∧ isScore (computeBuyerMetrics (buyerScaffold "u1" "User One" wToday)).eventReadiness
    ∧ isScore (computeSellerMetrics (sellerScaffold "s1" "Seller One" wToday)).sellThrough
    ∧ isScore (computeSellerMetrics (sellerScaffold "s1" "Seller One" wToday)).spoilageRisk
    ∧ isScore
        (computeSellerMetrics (sellerScaffold "s1" "Seller One" wToday)).promotionMomentum
    ∧ isScore
        (computeSellerMetrics (sellerScaffold "s1" "Seller One" wToday)).demandConfidence :=
  metrics_in_range (buyerScaffold "u1" "User One" wToday)
    (sellerScaffold "s1" "Seller One" wToday)
    (by simp [buyerScaffold])

end Marketplace
